import Mathlib

/-!
Verification development for the color-dataset CLI's ingestion and curation
engine: a shallow embedding in Lean 4 of the TypeScript sources
(`ColorMetrics`, `StringMetrics`, `SemanticDeduplicator`, `SpectrumAnalyzer`,
`QualityScorer`, `DatasetPruner`, `ASTDetector`) together with theorems about
the embedded definitions.

Modelling conventions:
* JavaScript numbers are modelled as exact rationals; where the code can
  produce the IEEE special values `NaN` / `Infinity` / `-Infinity`
  (divisions such as `0/0`) we use the `JNum` type, which is `ℚ` extended by
  those three values with JavaScript's propagation rules.
* `Math.round x` is `⌊x + 1/2⌋` (round half toward positive infinity),
  `Math.floor` / `Math.ceil` are `⌊·⌋` / `⌈·⌉`.
* `Math.sqrt` is modelled by `Rat.sqrt`, which agrees with the real square
  root exactly on perfect-square rationals; every square root that any
  theorem below actually evaluates is taken at a perfect square of a
  rational, where the model is exact.
* JavaScript strings are `List Char`; `Array.prototype.sort` (stable since
  ES2019) with the comparator `(a, b) => f b - f a` is modelled by a stable
  insertion sort placing `x` before `y` iff `f y - f x ≤ 0`.
* Progress bars and loggers are pure side effects and are dropped.
-/

/-- JavaScript `Math.round` on an exact rational: round half toward `+∞`. -/
def jsRound (q : ℚ) : ℚ := (⌊q + 1/2⌋ : ℤ)

/-- JavaScript `Math.floor`. -/
def jsFloor (q : ℚ) : ℚ := (⌊q⌋ : ℤ)

/-- JavaScript `Math.ceil`. -/
def jsCeil (q : ℚ) : ℚ := (⌈q⌉ : ℤ)

/-- Truncation toward zero, as used by the JavaScript `%` operator. -/
def jsTrunc (q : ℚ) : ℚ := if 0 ≤ q then (⌊q⌋ : ℤ) else (⌈q⌉ : ℤ)

/-- JavaScript remainder `a % n` (sign follows the dividend). -/
def jsMod (a n : ℚ) : ℚ := a - n * jsTrunc (a / n)

/-- The rounding helper `v => Math.round(v * 1000) / 1000` from
`ColorMetrics.hexToRgb` (three decimal places). -/
def jsRound3 (q : ℚ) : ℚ := jsRound (q * 1000) / 1000

/-- JavaScript double idealized: an exact rational, or one of the IEEE
special values `NaN`, `Infinity`, `-Infinity`. -/
inductive JNum where
  | fin (q : ℚ)
  | inf
  | ninf
  | nan
deriving DecidableEq, Repr

namespace JNum

instance : Coe ℚ JNum := ⟨fin⟩

/-- JavaScript addition with special-value propagation. -/
def add : JNum → JNum → JNum
  | fin a, fin b => fin (a + b)
  | fin _, inf => inf
  | fin _, ninf => ninf
  | inf, fin _ => inf
  | ninf, fin _ => ninf
  | inf, inf => inf
  | ninf, ninf => ninf
  | inf, ninf => nan
  | ninf, inf => nan
  | _, _ => nan

/-- JavaScript negation. -/
def neg : JNum → JNum
  | fin a => fin (-a)
  | inf => ninf
  | ninf => inf
  | nan => nan

/-- JavaScript subtraction. -/
def sub (a b : JNum) : JNum := add a (neg b)

/-- JavaScript multiplication (`0 * Infinity` is `NaN`). -/
def mul : JNum → JNum → JNum
  | fin a, fin b => fin (a * b)
  | fin a, inf => if a = 0 then nan else if 0 < a then inf else ninf
  | fin a, ninf => if a = 0 then nan else if 0 < a then ninf else inf
  | inf, fin b => if b = 0 then nan else if 0 < b then inf else ninf
  | ninf, fin b => if b = 0 then nan else if 0 < b then ninf else inf
  | inf, inf => inf
  | ninf, ninf => inf
  | inf, ninf => ninf
  | ninf, inf => ninf
  | _, _ => nan

/-- JavaScript division: `0/0` is `NaN`, `x/0` is a signed infinity
(the model has no negative zero; divisors in this development are
non-negative). -/
def div : JNum → JNum → JNum
  | fin a, fin b =>
      if b = 0 then (if a = 0 then nan else if 0 < a then inf else ninf)
      else fin (a / b)
  | fin _, inf => fin 0
  | fin _, ninf => fin 0
  | inf, fin b => if 0 ≤ b then inf else ninf
  | ninf, fin b => if 0 ≤ b then ninf else inf
  | _, _ => nan

/-- JavaScript `Math.min` on two values (`NaN` is absorbing). -/
def jmin : JNum → JNum → JNum
  | fin a, fin b => fin (min a b)
  | fin a, inf => fin a
  | inf, fin b => fin b
  | fin _, ninf => ninf
  | ninf, fin _ => ninf
  | inf, inf => inf
  | ninf, _ => ninf
  | inf, ninf => ninf
  | _, _ => nan

/-- JavaScript `Math.max` on two values (`NaN` is absorbing). -/
def jmax : JNum → JNum → JNum
  | fin a, fin b => fin (max a b)
  | fin _, inf => inf
  | inf, fin _ => inf
  | fin a, ninf => fin a
  | ninf, fin b => fin b
  | inf, _ => inf
  | ninf, inf => inf
  | ninf, ninf => ninf
  | _, _ => nan

/-- JavaScript `Math.abs`. -/
def jabs : JNum → JNum
  | fin a => fin |a|
  | inf => inf
  | ninf => inf
  | nan => nan

/-- JavaScript `Math.round` (half toward `+∞`; special values unchanged). -/
def jround : JNum → JNum
  | fin a => fin (jsRound a)
  | inf => inf
  | ninf => ninf
  | nan => nan

/-- JavaScript `Math.sqrt`: `NaN` on negatives; on non-negative rationals we
use `Rat.sqrt`, exact whenever the argument is a perfect square of a
rational (which covers every evaluation in this development). -/
def jsqrt : JNum → JNum
  | fin a => if a < 0 then nan else fin (Rat.sqrt a)
  | inf => inf
  | ninf => nan
  | nan => nan

/-- `Math.min(...)` over a spread array: fold from `Infinity`. -/
def jminList (l : List JNum) : JNum := l.foldl jmin inf

/-- `Math.max(...)` over a spread array: fold from `-Infinity`. -/
def jmaxList (l : List JNum) : JNum := l.foldl jmax ninf

/-- JavaScript comparison `x > 0` as used by sort comparators
(false when `x` is `NaN`). -/
def gtZero : JNum → Bool
  | fin a => decide (0 < a)
  | inf => true
  | _ => false

/-- JavaScript comparison `x < y` (false when either side is `NaN`). -/
def jlt : JNum → JNum → Bool
  | fin a, fin b => decide (a < b)
  | fin _, inf => true
  | ninf, fin _ => true
  | ninf, inf => true
  | _, _ => false

end JNum

/-- Stable insertion of `x` into a list sorted descending by `f`:
`x` goes before the first `y` with `f y - f x ≤ 0`, i.e. before the first
element the comparator `(a, b) => f b - f a` does not strictly prefer.
This reproduces a stable `Array.prototype.sort` run with that comparator
(ties keep input order). -/
def jsSortInsert {α : Type} (f : α → JNum) (x : α) : List α → List α
  | [] => [x]
  | y :: ys =>
      if (JNum.gtZero (JNum.sub (f y) (f x))) = true then y :: jsSortInsert f x ys
      else x :: y :: ys

/-- Stable sort descending by score `f`, modelling
`arr.sort((a, b) => f b - f a)`. -/
def jsSortByScoreDesc {α : Type} (f : α → JNum) : List α → List α
  | [] => []
  | x :: xs => jsSortInsert f x (jsSortByScoreDesc f xs)

namespace StringMetrics

/-- Largest index `k` with `1 ≤ k ≤ i` and `a[k-1] = c`, else `0`: the
contents of the deduplicator DP's last-occurrence map `da` (and of the
per-row variable `db`) from `StringMetrics.damerauLevenshtein`. -/
def lastIdx (a : List Char) (c : Char) : ℕ → ℕ
  | 0 => 0
  | i + 1 => if a.getD i ' ' = c then i + 1 else lastIdx a c i

/-- Cell read `H[r][c]` on the list-of-rows matrix. -/
def getCell (H : List (List ℕ)) (r c : ℕ) : ℕ := (H.getD r []).getD c 0

/-- Cell write `H[r][c] = v` (in-range on every use below). -/
def setCell (H : List (List ℕ)) (r c v : ℕ) : List (List ℕ) :=
  H.set r ((H.getD r []).set c v)

/-- The matrix `H` of `StringMetrics.damerauLevenshtein` after its two
border loops: every cell holds `maxDist = |a| + |b|` except
`H[1][j+1] = j` (for `0 ≤ j ≤ bLen`) and `H[i+1][1] = i`
(for `0 ≤ i ≤ aLen`). -/
def initH (aLen bLen maxDist : ℕ) : List (List ℕ) :=
  List.replicate (bLen + 2) maxDist ::
    (List.range (aLen + 1)).map (fun i =>
      if i = 0 then maxDist :: List.range (bLen + 1)
      else maxDist :: i :: List.replicate bLen maxDist)

/-- The value written to `H[i+1][j+1]` at loop iteration `(i, j)` of
`StringMetrics.damerauLevenshtein`: the source's four-way minimum, written
exactly as the code has it — `H[i][j+1] + cost`, `H[i+1][j] + 1`,
`H[i][j] + 1` and the last-occurrence transposition term. Note the code
adds `cost` to the deletion term `H[i][j+1]` and the constant `1` to the
diagonal term `H[i][j]` (the textbook recurrence has those the other way
round). `i1 = da.get(b[j-1]) || 0` and `j1 = db` are expressed through
`lastIdx` (both are at most `i-1` resp. `j-1`, so the truncated `ℕ`
subtractions agree with the JavaScript ones). -/
def dlCell (a b : List Char) (H : List (List ℕ)) (i j : ℕ) : ℕ :=
  let cost : ℕ := if a.getD (i - 1) ' ' = b.getD (j - 1) ' ' then 0 else 1
  let i1 := lastIdx a (b.getD (j - 1) ' ') (i - 1)
  let j1 := lastIdx b (a.getD (i - 1) ' ') (j - 1)
  min (min (getCell H i (j + 1) + cost) (getCell H (i + 1) j + 1))
      (min (getCell H i j + 1)
           (getCell H i1 j1 + (i - i1 - 1) + 1 + (j - j1 - 1)))

/-- Inner loop of `damerauLevenshtein`: row `i`, `j` from `1` to `|b|`. -/
def dlRow (a b : List Char) (H : List (List ℕ)) (i : ℕ) : List (List ℕ) :=
  (List.range b.length).foldl
    (fun H2 j0 => setCell H2 (i + 1) (j0 + 2) (dlCell a b H2 i (j0 + 1))) H

/-- `StringMetrics.damerauLevenshtein`: run the double loop over the
bordered matrix and read `H[|a|+1][|b|+1]`. -/
def damerauLevenshtein (a b : List Char) : ℕ :=
  let H := (List.range a.length).foldl (fun H2 i0 => dlRow a b H2 (i0 + 1))
    (initH a.length b.length (a.length + b.length))
  getCell H (a.length + 1) (b.length + 1)

/-- The restricted Damerau-Levenshtein (optimal string alignment) distance,
written from the specification's words: insertions, deletions,
substitutions, and adjacent transpositions, where no substring is edited
after being transposed — the textbook OSA recurrence. This is the
spec-side definition used to compare against the code's
`damerauLevenshtein`. -/
def osaGo (a b : List Char) : ℕ → ℕ → ℕ → ℕ
  | _, 0, j => j
  | _, i + 1, 0 => i + 1
  | 0, _ + 1, _ + 1 => 0
  | f + 1, i + 1, j + 1 =>
      let cost : ℕ := if a.getD i ' ' = b.getD j ' ' then 0 else 1
      let base :=
        min (min (osaGo a b f i (j + 1) + 1) (osaGo a b f (i + 1) j + 1))
            (osaGo a b f i j + cost)
      if 1 ≤ i ∧ 1 ≤ j ∧ a.getD i ' ' = b.getD (j - 1) ' ' ∧
          a.getD (i - 1) ' ' = b.getD j ' ' then
        min base (osaGo a b f (i - 1) (j - 1) + 1)
      else base

/-- Optimal-string-alignment distance (spec-side definition). -/
def osaDistance (a b : List Char) : ℕ :=
  osaGo a b (a.length + b.length) a.length b.length

end StringMetrics

namespace ColorMetrics

/-- Whitespace recognised by `String.prototype.trim` (ASCII subset). -/
def isJsWhitespace (c : Char) : Bool :=
  c = ' ' || c = '\t' || c = '\n' || c = '\r' || c = Char.ofNat 11 || c = Char.ofNat 12

/-- JavaScript `String.prototype.trim`. -/
def jsTrim (l : List Char) : List Char :=
  ((l.dropWhile isJsWhitespace).reverse.dropWhile isJsWhitespace).reverse

/-- JavaScript `String.prototype.toLowerCase` on one ASCII character. -/
def jsToLowerChar (c : Char) : Char :=
  if 'A' ≤ c ∧ c ≤ 'Z' then Char.ofNat (c.toNat + 32) else c

/-- Character class `[0-9a-f]` of the hex regexes. -/
def isLowerHexDigit (c : Char) : Bool :=
  ('0' ≤ c && c ≤ '9') || ('a' ≤ c && c ≤ 'f')

/-- Match of the anchored regex `^[0-9a-f]{n}$`. -/
def matchesHexLen (n : ℕ) (l : List Char) : Bool :=
  l.length == n && l.all isLowerHexDigit

/-- Value of one lowercase hex digit. -/
def hexDigitVal (c : Char) : ℕ :=
  if '0' ≤ c ∧ c ≤ '9' then c.toNat - 48
  else if 'a' ≤ c ∧ c ≤ 'f' then c.toNat - 87
  else 0

/-- `parseInt(s, 16)` on a two-character slice of an already-validated
lowercase hex string (the only way `hexToRgb` calls it). -/
def parseHex2 (c d : Char) : ℕ := 16 * hexDigitVal c + hexDigitVal d

/-- `ColorMetrics.normalizeRgb`: `rgb.map(v => v >= 1 ? v / 255 : v)`. -/
def normalizeRgb (rgb : List ℚ) : List ℚ :=
  rgb.map (fun v => if 1 ≤ v then v / 255 else v)

/-- `ColorMetrics.hexToRgb`: HEX(A) → RGB(A) in `[0,1]`, three decimals.
Mirrors the source exactly, including the early `[0,0,0,1]` fallback when
the regex fails, and the 3-digit expansion being keyed on the length of
the RAW argument `hex` (not of the trimmed, `#`-stripped `normalized`). -/
def hexToRgb (hex : List Char) : List ℚ :=
  let normalized0 := (jsTrim hex).map jsToLowerChar
  let normalized1 := if normalized0.headD ' ' = '#' then normalized0.tail else normalized0
  if ¬((matchesHexLen 3 normalized1 || matchesHexLen 6 normalized1 ||
        matchesHexLen 8 normalized1) = true) then
    [0, 0, 0, 1]
  else
    let normalized2 :=
      if hex.length = 3 then (normalized1.map (fun ch => [ch, ch])).flatten
      else normalized1
    match normalized2 with
    | [c1, c2, c3, c4, c5, c6] =>
        (normalizeRgb [(parseHex2 c1 c2 : ℚ), (parseHex2 c3 c4 : ℚ),
                       (parseHex2 c5 c6 : ℚ), 1]).map jsRound3
    | [c1, c2, c3, c4, c5, c6, c7, c8] =>
        (normalizeRgb [(parseHex2 c1 c2 : ℚ), (parseHex2 c3 c4 : ℚ),
                       (parseHex2 c5 c6 : ℚ), (parseHex2 c7 c8 : ℚ)]).map jsRound3
    | _ => [0, 0, 0, 1]

/-- `ColorMetrics.calculateHueRange` on the `h`, `s` fields it reads
(`s < 0.05` means achromatic, spread `max(1, 20*(1-s))`, clamps at `0` and
`360`, full circle when the span exceeds `180`, endpoints rounded to one
decimal). -/
def calculateHueRange (h s : ℚ) : ℚ × ℚ :=
  if s < 1/20 then (0, 360)
  else
    let spread := max 1 (20 * (1 - s))
    let start0 := h - spread
    let end0 := h + spread
    let start1 := if start0 < 0 then 0 else start0
    let end1 := if 360 < end0 then 360 else end0
    if 180 < end1 - start1 then (0, 360)
    else (jsRound (start1 * 10) / 10, jsRound (end1 * 10) / 10)

/-- The color-family tags returned by `ColorMetrics.getColorFamily`. -/
inductive Family where
  | black | white | gray | pastel | neon
  | red | orange | yellow | chartreuse | green | springgreen | cyan
  | azure | blue | violet | magenta | rose
  | brown | earth | pink | metallic | skin | jewel | nature | food
  | lime | teal | purple
deriving DecidableEq, Repr

/-- The 12 base hue families (the `baseFamily` local of
`ColorMetrics.getColorFamily`). -/
def baseHueFamily (h : ℚ) : Family :=
  if 345 ≤ h ∨ h ≤ 15 then .red
  else if h < 45 then .orange
  else if h < 75 then .yellow
  else if h < 105 then .chartreuse
  else if h < 135 then .green
  else if h < 165 then .springgreen
  else if h < 195 then .cyan
  else if h < 225 then .azure
  else if h < 255 then .blue
  else if h < 285 then .violet
  else if h < 315 then .magenta
  else if h < 345 then .rose
  else .red

/-- The saturation/lightness-conditioned refinement chain of
`ColorMetrics.getColorFamily` (everything after the achromatic and
pastel/neon early returns); `h` is the already-normalized hue, and each
occurrence of `baseHueFamily h` stands for the source's `baseFamily`
local. -/
def getColorFamilyRefine (h s l : ℚ) : Family :=
  if (s < 1/2 ∧ l < 7/10) ∧
      baseHueFamily h ∈ [Family.orange, Family.yellow, Family.red] then
    (if s < 3/5 ∧ l < 7/10 then .brown else .earth)
  else if (baseHueFamily h = .red ∨ baseHueFamily h = .rose ∨ baseHueFamily h = .magenta) ∧
      (7/10 < l ∧ 3/10 < s ∧ s < 4/5) then .pink
  else if baseHueFamily h ∈ [Family.yellow, Family.orange] ∧
      (1/5 < s ∧ s < 7/10 ∧ 1/2 < l) then .metallic
  else if baseHueFamily h ∈ [Family.orange, Family.yellow, Family.brown] ∧
      (1/5 < s ∧ s < 7/10 ∧ 2/5 < l ∧ l < 9/10) then .skin
  else if baseHueFamily h ∈
        [Family.red, Family.green, Family.blue, Family.purple, Family.magenta] ∧
      (7/10 < s ∧ 1/2 < l) then .jewel
  else if baseHueFamily h ∈ [Family.green, Family.blue, Family.springgreen, Family.cyan] ∧
      (3/10 < s ∧ s < 4/5 ∧ 3/10 < l ∧ l < 9/10) then .nature
  else if baseHueFamily h ∈
        [Family.red, Family.orange, Family.yellow, Family.green, Family.brown] ∧
      (1/2 < s ∧ 1/2 < l) then .food
  else if baseHueFamily h = .chartreuse then .lime
  else if baseHueFamily h = .cyan ∨ baseHueFamily h = .springgreen then .teal
  else if baseHueFamily h = .violet then .purple
  else baseHueFamily h

/-- `ColorMetrics.getColorFamily`: the deterministic family decision tree
(achromatic bands, pastel/neon, 12 hue sectors, then the
saturation/lightness-conditioned refinements, in source order; the hue is
normalized to `[0, 360)` first and only feeds the hue-sector part). -/
def getColorFamily (h0 s l : ℚ) : Family :=
  if l < 3/20 then .black
  else if s < 1/10 then (if 9/10 < l then .white else .gray)
  else if s < 3/10 ∧ 3/5 < l then .pastel
  else if 4/5 < s ∧ 4/5 < l then .neon
  else getColorFamilyRefine (jsMod (jsMod h0 360 + 360) 360) s l

end ColorMetrics

/-- JavaScript `toLowerCase` on a whole string. -/
def jsToLower (l : List Char) : List Char := l.map ColorMetrics.jsToLowerChar

/-- HSL triple as stored on dataset records (`h` in degrees, `s`/`l` as the
dataset stores them). -/
structure HSL where
  h : ℚ
  s : ℚ
  l : ℚ
deriving DecidableEq, Repr

/-- The canonical dataset record (`ColorData` in `@/types`, per the spec's
data model): hex and name strings, a family tag (a string at the dataset
level), derived rgb components, hsl, and the hue range. -/
structure ColorRecord where
  hex : List Char
  name : List Char
  family : List Char
  rgb : List ℚ
  hsl : HSL
  hueRange : ℚ × ℚ
deriving DecidableEq, Repr

instance : Inhabited ColorRecord := ⟨⟨[], [], [], [], ⟨0, 0, 0⟩, (0, 0)⟩⟩

/-- Insertion-ordered `Map<string, T[]>` upsert: append `c` to the group of
key `k`, creating the group at the end on first sight of `k` (JavaScript
`Map` iteration follows key insertion order). -/
def upsertGroup {α : Type} (k : List Char) (c : α) :
    List (List Char × List α) → List (List Char × List α)
  | [] => [(k, [c])]
  | (k2, g) :: rest =>
      if k2 = k then (k2, g ++ [c]) :: rest else (k2, g) :: upsertGroup k c rest

namespace SemanticDeduplicator

/-- `DuplicateGroup` record from `@/types` as used by the deduplicator. -/
structure DuplicateGroup where
  hex : List Char
  names : List (List Char)
  selected : List Char
  reason : List Char
deriving DecidableEq, Repr

/-- Result shape of `SemanticDeduplicator.deduplicate`. -/
structure DeduplicateRawResult where
  colors : List ColorRecord
  stats : List DuplicateGroup
deriving DecidableEq, Repr

/-- `SemanticDeduplicator.calculateScore`. The external name-semantics
collaborator (`SemanticAnalyzer`, not part of the curation core) is passed
in as the opaque oracle `scoreSemanticMatch`, as the spec directs. The
uniqueness term folds `Math.min` from `Infinity` over the damerau-levenshtein
distances to the other group members; the source skips `other === color` by
object identity, modelled here as skipping the scored element's own
position. -/
def calculateScore (scoreSemanticMatch : ColorRecord → ℚ) (color : ColorRecord)
    (group : List ColorRecord) (index : ℕ) (priorityColors : List ColorRecord) : JNum :=
  let priorityBonus : ℚ :=
    if priorityColors.any (fun pc =>
        jsToLower pc.hex = jsToLower color.hex ∧
        jsToLower pc.name = jsToLower color.name) then 60 else 0
  let semanticScore : ℚ := scoreSemanticMatch color * (3/10)
  let minDistance : JNum := JNum.jminList
    ((group.enum.filter (fun p => p.1 ≠ index)).map
      (fun p => JNum.fin (StringMetrics.damerauLevenshtein color.name p.2.name)))
  let uniquenessTerm : JNum :=
    JNum.mul (JNum.jmin (JNum.mul minDistance (JNum.fin 10)) (JNum.fin 100)) (JNum.fin (3/20))
  let lengthScore : ℚ := max 0 (10 - |(color.name.length : ℚ) - 10|)
  let priorityScore : ℚ := ((group.length : ℚ) - (index : ℚ)) * 5
  ((((JNum.fin 0).add (JNum.fin priorityBonus)).add (JNum.fin semanticScore)).add
      uniquenessTerm).add (JNum.fin (lengthScore * (1/10)))
    |>.add (JNum.fin (priorityScore * (1/20)))

/-- `SemanticDeduplicator.selectBestName`: score every group member, sort
descending by score (stable), return the first. -/
def selectBestName (scoreSemanticMatch : ColorRecord → ℚ) (group : List ColorRecord)
    (priorityColors : List ColorRecord) : ColorRecord :=
  let scores := group.enum.map
    (fun p => (calculateScore scoreSemanticMatch p.2 group p.1 priorityColors, p.2))
  match jsSortByScoreDesc Prod.fst scores with
  | [] => default
  | w :: _ => w.2

/-- `SemanticDeduplicator.getSelectionReason`. -/
def getSelectionReason (scoreSemanticMatch : ColorRecord → ℚ) (group : List ColorRecord)
    (winner : ColorRecord) (priorityColors : List ColorRecord) : List Char :=
  let names := group.map (·.name)
  let r1 : List (List Char) :=
    if priorityColors.any (fun pc =>
        jsToLower pc.hex = jsToLower winner.hex ∧
        jsToLower pc.name = jsToLower winner.name) then
      ["Priority dataset".data] else []
  let r2 : List (List Char) :=
    if names.contains "gray".data ∧ names.contains "grey".data then
      ["CSS standard".data] else []
  let r3 : List (List Char) :=
    if 50 < scoreSemanticMatch winner then
      ["Semantic: ".data ++ (toString (⌊scoreSemanticMatch winner + 1/2⌋ : ℤ)).data] else []
  List.intercalate " | ".data (r1 ++ r2 ++ r3)

/-- `SemanticDeduplicator.deduplicate`: two-phase collapse — group by
lower-cased hex, pick winners; then group the hex winners with non-empty
names by lower-cased name, pick winners; return the name winners (or the
hex winners directly when no record entered a name group) plus the
`DuplicateGroup` stats. -/
def deduplicate (scoreSemanticMatch : ColorRecord → ℚ) (colors : List ColorRecord)
    (priorityColors : List ColorRecord) : DeduplicateRawResult :=
  let hexGroups := colors.foldl (fun m c => upsertGroup (jsToLower c.hex) c m) []
  let step1 := hexGroups.foldl
    (fun (acc : List ColorRecord × List DuplicateGroup) kg =>
      if kg.2.length = 1 then (acc.1 ++ [kg.2.headD default], acc.2)
      else
        let winner := selectBestName scoreSemanticMatch kg.2 priorityColors
        (acc.1 ++ [winner],
         acc.2 ++ [⟨kg.1, kg.2.map (·.name), winner.name,
            getSelectionReason scoreSemanticMatch kg.2 winner priorityColors ++
              " | HEX".data⟩]))
    ([], [])
  let hexWinners := step1.1
  let hexDuplicates := step1.2
  let nameGroups := hexWinners.foldl
    (fun m w => if w.name = [] then m else upsertGroup (jsToLower w.name) w m) []
  if nameGroups.length = 0 then ⟨hexWinners, hexDuplicates⟩
  else
    let step2 := nameGroups.foldl
      (fun (acc : List ColorRecord × List DuplicateGroup) kg =>
        if kg.2.length = 1 then (acc.1 ++ [kg.2.headD default], acc.2)
        else
          let winner := selectBestName scoreSemanticMatch kg.2 priorityColors
          (acc.1 ++ [winner],
           acc.2 ++ [⟨List.intercalate ", ".data (kg.2.map (·.hex)),
              kg.2.map (·.name), winner.name,
              getSelectionReason scoreSemanticMatch kg.2 winner priorityColors ++
                " | NAME".data⟩]))
      ([], [])
    ⟨step2.1, hexDuplicates ++ step2.2⟩

end SemanticDeduplicator

namespace SpectrumAnalyzer

/-- A hue bucket of `SpectrumAnalyzer` (`BUCKET_SIZE = 15` degrees). -/
structure SpectrumBucket where
  hueMin : ℚ
  hueMax : ℚ
  colors : List ColorRecord
  density : ℚ
  avgSaturation : ℚ
  avgLightness : ℚ
deriving DecidableEq, Repr

/-- Observed per-family min/max of h, s, l. -/
structure FamilyRange where
  minH : ℚ
  maxH : ℚ
  minS : ℚ
  maxS : ℚ
  minL : ℚ
  maxL : ℚ
deriving DecidableEq, Repr

/-- Result of `SpectrumAnalyzer.analyzeCoverage`. `buckets` is the
insertion-ordered `Map<number, SpectrumBucket>`; `families` models the
`Set<Family>` (insertion-ordered, distinct); `minHue` / `maxHue` are
`Math.min(...)` / `Math.max(...)` over non-empty buckets (hence
`±Infinity` on an all-empty spectrum, as in JavaScript). -/
structure SpectrumCoverage where
  buckets : List (ℚ × SpectrumBucket)
  minHue : JNum
  maxHue : JNum
  families : List (List Char)
  familyRanges : List (List Char × FamilyRange)
deriving Repr

/-- The 24 buckets created by `for (let i = 0; i < 360; i += 15)`. -/
def initBuckets : List (ℚ × SpectrumBucket) :=
  (List.range 24).map (fun i => (((15 * i : ℕ) : ℚ), ⟨((15 * i : ℕ) : ℚ), ((15 * i + 15 : ℕ) : ℚ), [], 0, 0, 0⟩))

/-- One iteration of the color-distribution loop: push the color into its
bucket (if its key exists), track its family and extend the family range. -/
def distributeColor
    (st : List (ℚ × SpectrumBucket) × List (List Char) × List (List Char × FamilyRange))
    (color : ColorRecord) :
    List (ℚ × SpectrumBucket) × List (List Char) × List (List Char × FamilyRange) :=
  let h := color.hsl.h
  let bucketKey := jsFloor (h / 15) * 15
  let buckets := st.1.map (fun kb =>
    if kb.1 = bucketKey then (kb.1, { kb.2 with colors := kb.2.colors ++ [color] }) else kb)
  let families := if st.2.1.contains color.family then st.2.1 else st.2.1 ++ [color.family]
  let ranges :=
    if (st.2.2.lookup color.family).isSome then
      st.2.2.map (fun fr =>
        if fr.1 = color.family then
          (fr.1, ⟨min fr.2.minH h, max fr.2.maxH h,
                  min fr.2.minS color.hsl.s, max fr.2.maxS color.hsl.s,
                  min fr.2.minL color.hsl.l, max fr.2.maxL color.hsl.l⟩)
        else fr)
    else st.2.2 ++ [(color.family, ⟨h, h, color.hsl.s, color.hsl.s, color.hsl.l, color.hsl.l⟩)]
  (buckets, families, ranges)

/-- Density / average saturation / average lightness pass over one bucket. -/
def finishBucket (b : SpectrumBucket) : SpectrumBucket :=
  let density : ℚ := b.colors.length
  if 0 < b.colors.length then
    { b with
      density := density
      avgSaturation := (b.colors.map (fun c => c.hsl.s)).foldl (· + ·) 0 / b.colors.length
      avgLightness := (b.colors.map (fun c => c.hsl.l)).foldl (· + ·) 0 / b.colors.length }
  else { b with density := density }

/-- `SpectrumAnalyzer.analyzeCoverage`. -/
def analyzeCoverage (colors : List ColorRecord) : SpectrumCoverage :=
  let st := colors.foldl distributeColor (initBuckets, [], [])
  let buckets := st.1.map (fun kb => (kb.1, finishBucket kb.2))
  let nonEmpty := (buckets.map Prod.snd).filter (fun b => 0 < b.density)
  { buckets := buckets
    minHue := JNum.jminList (nonEmpty.map (fun b => JNum.fin b.hueMin))
    maxHue := JNum.jmaxList (nonEmpty.map (fun b => JNum.fin b.hueMax))
    families := st.2.1
    familyRanges := st.2.2 }

/-- `SpectrumAnalyzer.getCriticalBuckets`: non-empty buckets whose density
is below half the average density of non-empty buckets (the average is a
JavaScript division, `NaN` when there are no non-empty buckets, in which
case every `<` comparison is false and the result is empty). -/
def getCriticalBuckets (coverage : SpectrumCoverage) : List SpectrumBucket :=
  let buckets := (coverage.buckets.map Prod.snd).filter (fun b => 0 < b.density)
  let avgDensity : JNum :=
    JNum.div (JNum.fin ((buckets.map (fun b => b.density)).foldl (· + ·) 0))
      (JNum.fin (buckets.length : ℚ))
  buckets.filter (fun b =>
    JNum.jlt (JNum.fin b.density) (JNum.mul avgDensity (JNum.fin (1/2))) = true)

end SpectrumAnalyzer

namespace QualityScorer

/-- The spectral-range argument of `QualityScorer.scoreColor`. -/
structure SpectralRanges where
  hMin : ℚ
  hMax : ℚ
  sMin : ℚ
  sMax : ℚ
  lMin : ℚ
  lMax : ℚ
deriving DecidableEq, Repr

/-- `ColorQualityMetrics` from `@/types`. -/
structure ColorQualityMetrics where
  color : ColorRecord
  uniqueness : JNum
  saturationQuality : JNum
  lightnessQuality : JNum
  familyRepresentativity : JNum
  overallScore : JNum
deriving DecidableEq, Repr

instance : Inhabited ColorQualityMetrics :=
  ⟨⟨default, JNum.nan, JNum.nan, JNum.nan, JNum.nan, JNum.nan⟩⟩

/-- `QualityScorer.colorDistance`: weighted Euclidean distance over
normalized hue/saturation/lightness deltas, scaled by 100. -/
def colorDistance (c1 c2 : ColorRecord) : JNum :=
  let dH : ℚ := min |c1.hsl.h - c2.hsl.h| (360 - |c1.hsl.h - c2.hsl.h|)
  let dS : ℚ := |c1.hsl.s - c2.hsl.s|
  let dL : ℚ := |c1.hsl.l - c2.hsl.l|
  JNum.mul
    (JNum.jsqrt (JNum.fin
      ((dH / 360) ^ 2 * (2/5) + (dS / 100) ^ 2 * (3/10) + (dL / 100) ^ 2 * (3/10))))
    (JNum.fin 100)

/-- `QualityScorer.calculateUniqueness`: `1.0` with no nearby colors, else
`min(1, minDistance / 100)`. -/
def calculateUniqueness (color : ColorRecord) (nearbyColors : List ColorRecord) : JNum :=
  if nearbyColors.length = 0 then JNum.fin 1
  else
    let minDistance := JNum.jminList (nearbyColors.map (fun c => colorDistance color c))
    JNum.jmin (JNum.fin 1) (JNum.div minDistance (JNum.fin 100))

/-- `QualityScorer.calculateSaturationQuality`: distance from the midpoint
of the family saturation range over the larger half-range (a JavaScript
division: `NaN` when both are zero, `Infinity`-capped otherwise). -/
def calculateSaturationQuality (s sMin sMax : ℚ) : JNum :=
  let mid := (sMin + sMax) / 2
  let distanceFromMid := |s - mid|
  let maxDistance := max (mid - sMin) (sMax - mid)
  JNum.jmin (JNum.fin 1) (JNum.div (JNum.fin distanceFromMid) (JNum.fin maxDistance))

/-- `QualityScorer.calculateLightnessQuality`. -/
def calculateLightnessQuality (l lMin lMax : ℚ) : JNum :=
  if l < lMin + 10 ∨ lMax - 10 < l then JNum.fin (3/10)
  else if l < lMin + 20 ∨ lMax - 20 < l then JNum.fin (3/5)
  else JNum.fin 1

/-- `QualityScorer.calculateFamilyRepresentativity`: `1.0` with no family
colors, else `max(0.3, 1 - 2 * distance-to-family-centroid)`. -/
def calculateFamilyRepresentativity (color : ColorRecord)
    (familyColors : List ColorRecord) : JNum :=
  if familyColors.length = 0 then JNum.fin 1
  else
    let n : ℚ := familyColors.length
    let centerH := (familyColors.map (fun c => c.hsl.h)).foldl (· + ·) 0 / n
    let centerS := (familyColors.map (fun c => c.hsl.s)).foldl (· + ·) 0 / n
    let centerL := (familyColors.map (fun c => c.hsl.l)).foldl (· + ·) 0 / n
    let distance := JNum.jsqrt (JNum.fin
      (((color.hsl.h - centerH) / 360) ^ 2 * (3/10) +
       ((color.hsl.s - centerS) / 100) ^ 2 * (3/10) +
       ((color.hsl.l - centerL) / 100) ^ 2 * (2/5)))
    JNum.jmax (JNum.fin (3/10)) ((JNum.fin 1).sub (distance.mul (JNum.fin 2)))

/-- `QualityScorer.scoreColor`. -/
def scoreColor (color : ColorRecord) (nearbyColors familyColors : List ColorRecord)
    (spectralRanges : SpectralRanges) : ColorQualityMetrics :=
  let uniqueness := calculateUniqueness color nearbyColors
  let saturationQuality :=
    calculateSaturationQuality color.hsl.s spectralRanges.sMin spectralRanges.sMax
  let lightnessQuality :=
    calculateLightnessQuality color.hsl.l spectralRanges.lMin spectralRanges.lMax
  let familyRepresentativity := calculateFamilyRepresentativity color familyColors
  let overallScore := JNum.jround
    ((((uniqueness.mul (JNum.fin 35)).add (saturationQuality.mul (JNum.fin 25))).add
        (lightnessQuality.mul (JNum.fin 25))).add
      (familyRepresentativity.mul (JNum.fin 15)))
  ⟨color, uniqueness, saturationQuality, lightnessQuality, familyRepresentativity,
    overallScore⟩

end QualityScorer

namespace DatasetPruner

open QualityScorer SpectrumAnalyzer

/-- `Partial<PruningConfig>`: the caller-supplied option overrides. -/
structure PruningOptions where
  targetCount : Option ℕ := none
  minFamilies : Option ℚ := none
  minCoverage : Option ℚ := none
  preserveExtremes : Option Bool := none

/-- The resolved `PruningConfig` (spread of defaults then options). -/
structure PruningConfig where
  targetCount : ℕ
  minFamilies : ℚ
  minCoverage : ℚ
  preserveExtremes : Bool

/-- `PruningStats` from `@/types` (the count subtraction is a JavaScript
number, so it is an integer that may in principle go negative). -/
structure PruningStats where
  removedCount : ℤ
  keptCount : ℕ
  avgScoreKept : JNum
  avgScoreRemoved : JNum
deriving Repr

/-- `DatasetPruner.scoreAllColors`: score every color against its family
colors, its family spectral range, and the colors within 30 hue degrees. -/
def scoreAllColors (colors : List ColorRecord) (coverage : SpectrumCoverage) :
    List ColorQualityMetrics :=
  colors.map (fun color =>
    let familyColors := colors.filter (fun c => c.family = color.family)
    let familyRange := (coverage.familyRanges.lookup color.family).getD ⟨0, 0, 0, 0, 0, 0⟩
    let nearbyColors := colors.filter (fun c =>
      let dist := min |c.hsl.h - color.hsl.h| (360 - |c.hsl.h - color.hsl.h|)
      c.hex ≠ color.hex ∧ dist < 30)
    scoreColor color nearbyColors familyColors
      ⟨familyRange.minH, familyRange.maxH, familyRange.minS, familyRange.maxS,
       familyRange.minL, familyRange.maxL⟩)

/-- One iteration of the gap-filling loop of
`DatasetPruner.selectOptimalColors` (Step 3): among the removed colors
whose hue falls in the critical bucket, push the best-scored one if the
target is not yet reached, then re-sort and re-truncate. -/
def backfillStep (scoredColors final0 : List ColorQualityMetrics) (target : ℕ)
    (cur : List ColorQualityMetrics) (gapBucket : SpectrumBucket) :
    List ColorQualityMetrics :=
  let removed := scoredColors.filter (fun sc =>
    ¬ final0.any (fun f => f.color.hex = sc.color.hex))
  let candidates := jsSortByScoreDesc (fun sc => sc.overallScore)
    (removed.filter (fun sc =>
      gapBucket.hueMin ≤ sc.color.hsl.h ∧ sc.color.hsl.h < gapBucket.hueMax))
  if 0 < candidates.length ∧ cur.length < target then
    (jsSortByScoreDesc (fun sc => sc.overallScore)
      (cur ++ [candidates.headD default])).take target
  else cur

/-- `DatasetPruner.selectOptimalColors`: family representation (top
`ceil(target/familyCount*1.2)` per family), quality ranking (sort by
overall score, truncate to target), then spectral gap backfill over at
most `ceil(target*0.05)` critical buckets, each successful fill re-sorting
and re-truncating. -/
def selectOptimalColors (scoredColors : List ColorQualityMetrics)
    (config : PruningConfig) : List ColorQualityMetrics :=
  let familiesMap := scoredColors.foldl
    (fun m sc => upsertGroup sc.color.family sc m) []
  let selected := familiesMap.foldl
    (fun acc kg =>
      let sorted := jsSortByScoreDesc (fun sc => sc.overallScore) kg.2
      let toTake := (⌈(config.targetCount : ℚ) / (familiesMap.length : ℚ) * (6/5)⌉ : ℤ).toNat
      acc ++ sorted.take (min toTake sorted.length))
    []
  let sortedByScore := jsSortByScoreDesc (fun sc => sc.overallScore) selected
  let final0 := sortedByScore.take config.targetCount
  let finalCoverage := analyzeCoverage (final0.map (fun sc => sc.color))
  let gapBuckets := getCriticalBuckets finalCoverage
  if 0 < gapBuckets.length then
    (gapBuckets.take (⌈(config.targetCount : ℚ) * (1/20)⌉ : ℤ).toNat).foldl
      (backfillStep scoredColors final0 config.targetCount) final0
  else final0

/-- `DatasetPruner.prune` (logger dropped; pure). -/
def prune (colors : List ColorRecord) (targetCount : ℕ) (options : PruningOptions) :
    List ColorRecord × PruningStats :=
  let distinctFamilies := colors.foldl
    (fun acc c => if acc.contains c.family then acc else acc ++ [c.family]) ([] : List (List Char))
  let config : PruningConfig :=
    { targetCount := options.targetCount.getD targetCount
      minFamilies := options.minFamilies.getD
        (max 20 (jsCeil ((distinctFamilies.length : ℚ) * (7/10))))
      minCoverage := options.minCoverage.getD (17/20)
      preserveExtremes := options.preserveExtremes.getD true }
  let originalCoverage := analyzeCoverage colors
  let scoredColors := scoreAllColors colors originalCoverage
  let selected := selectOptimalColors scoredColors config
  let removedScores := (scoredColors.filter (fun sc =>
      ¬ selected.any (fun s => s.color.hex = sc.color.hex))).map
    (fun sc => sc.overallScore)
  let stats : PruningStats :=
    { removedCount := (colors.length : ℤ) - (selected.length : ℤ)
      keptCount := selected.length
      avgScoreKept := JNum.div
        ((selected.map (fun sc => sc.overallScore)).foldl JNum.add (JNum.fin 0))
        (JNum.fin (selected.length : ℚ))
      avgScoreRemoved := JNum.div
        (removedScores.foldl JNum.add (JNum.fin 0))
        (JNum.fin (max 1 ((scoredColors.length : ℤ) - (selected.length : ℤ)) : ℤ)) }
  (selected.map (fun sc => sc.color), stats)

end DatasetPruner

/-- A deserialized JavaScript value as fed to `ASTDetector.detect`
(numbers restricted to integers: fractional literals play no role in any
shape test, every numeric regex test fails on a decimal point anyway). -/
inductive JSValue where
  | null
  | undef
  | bool (b : Bool)
  | num (n : ℤ)
  | str (s : List Char)
  | arr (items : List JSValue)
  | obj (fields : List (List Char × JSValue))

namespace JSValue

/-- `data === null`. -/
def isNull : JSValue → Bool
  | null => true
  | _ => false

/-- `data === undefined`. -/
def isUndef : JSValue → Bool
  | undef => true
  | _ => false

/-- `Array.isArray`. -/
def isArr : JSValue → Bool
  | arr _ => true
  | _ => false

/-- `typeof v === 'object'` (true for null, arrays and plain objects). -/
def typeofObject : JSValue → Bool
  | null => true
  | arr _ => true
  | obj _ => true
  | _ => false

/-- `typeof v === 'string'`. -/
def typeofString : JSValue → Bool
  | str _ => true
  | _ => false

/-- `typeof v` as a string (for the schema descriptions). -/
def typeofName : JSValue → List Char
  | null => "object".data
  | undef => "undefined".data
  | bool _ => "boolean".data
  | num _ => "number".data
  | str _ => "string".data
  | arr _ => "object".data
  | obj _ => "object".data

/-- JavaScript truthiness. -/
def truthy : JSValue → Bool
  | null => false
  | undef => false
  | bool b => b
  | num n => decide (n ≠ 0)
  | str s => decide (s ≠ [])
  | _ => true

/-- Whether `v[Symbol.iterator]` is a function (arrays and strings among
the values modelled here). -/
def hasIteratorFun : JSValue → Bool
  | arr _ => true
  | str _ => true
  | _ => false

/-- Property read `v.k` (undefined on primitives and absent keys; a read
on `null`/`undefined` would throw in JavaScript, which the guarded call
sites never do). -/
def propGet (v : JSValue) (k : List Char) : JSValue :=
  match v with
  | obj f => (f.lookup k).getD undef
  | _ => undef

/-- The `in` operator: key presence on an object. -/
def hasProp (v : JSValue) (k : List Char) : Bool :=
  match v with
  | obj f => (f.lookup k).isSome
  | _ => false

mutual
/-- `String(v)` (array elements join with commas, null/undefined inside an
array become empty, as in JavaScript). -/
def jsStringOf : JSValue → List Char
  | null => "null".data
  | undef => "undefined".data
  | bool true => "true".data
  | bool false => "false".data
  | num n => (toString n).data
  | str s => s
  | arr items => jsStringItems items
  | obj _ => "[object Object]".data

/-- Comma-joined element conversion used by `String` on an array. -/
def jsStringItems : List JSValue → List Char
  | [] => []
  | [x] => jsStringElem x
  | x :: y :: xs => jsStringElem x ++ [','] ++ jsStringItems (y :: xs)

/-- One array element as a string fragment. -/
def jsStringElem : JSValue → List Char
  | null => []
  | undef => []
  | v => jsStringOf v
end
end JSValue

namespace ASTDetector

open JSValue

/-- Case-insensitive hex digit, class `[0-9a-f]` under the `i` flag. -/
def isHexDigitCI (c : Char) : Bool :=
  ('0' ≤ c && c ≤ '9') || ('a' ≤ c && c ≤ 'f') || ('A' ≤ c && c ≤ 'F')

/-- Anchored match of `/^#?[0-9a-f]{m,n}$/i`. -/
def matchHexRange (m n : ℕ) (s : List Char) : Bool :=
  let t := if s.headD ' ' = '#' then s.tail else s
  m ≤ t.length && t.length ≤ n && t.all isHexDigitCI

/-- Match of `/^([0-9a-f]{6})$/i` (no `#`). -/
def matchHex6Bare (s : List Char) : Bool :=
  s.length == 6 && s.all isHexDigitCI

/-- `ASTStructure` from `@/types`: a structure candidate with its
confidence and free-form schema/metadata objects. -/
structure ASTStructure where
  type : List Char
  confidence : JNum
  schema : JSValue
  metadata : JSValue

/-- `ASTDetector.isIterable`. -/
def isIterable (data : JSValue) : Bool :=
  isArr data || (truthy data && hasIteratorFun data) ||
    (typeofObject data && !(isNull data) && !(isArr data))

/-- `ASTDetector.isColorPaletteRecord`: at least 80% of the object's values
look like `{name: string, hex: bare 6-digit hex}`. -/
def isColorPaletteRecord (data : JSValue) : Bool :=
  match data with
  | obj fields =>
      if fields.length = 0 then false
      else
        let values := fields.map Prod.snd
        let validColors := values.filter (fun sample =>
          typeofString (propGet sample "name".data) &&
          (match propGet sample "hex".data with
           | str s => matchHex6Bare s
           | _ => false))
        decide ((4/5 : ℚ) ≤ (validColors.length : ℚ) / (values.length : ℚ))
  | _ => false

/-- `ASTDetector.isJsonObjectFormat`: every value is a non-array object
with a non-empty string `name` and a bare 6-digit hex `hex`. -/
def isJsonObjectFormat (data : JSValue) : Bool :=
  match data with
  | obj fields =>
      if fields.length = 0 then false
      else
        (fields.map Prod.snd).all (fun sample =>
          typeofObject sample && !(isArr sample) &&
          typeofString (propGet sample "name".data) &&
          (match propGet sample "name".data with
           | str s => decide (0 < s.length)
           | _ => false) &&
          (match propGet sample "hex".data with
           | str s => matchHex6Bare s
           | _ => false))
  | _ => false

/-- `ASTDetector.isHexStringPairs`: an array of 2-element arrays, one
element of each pair loose-hex (`/^#?[0-9a-f]{3,8}$/i` on its string
conversion) while the other is a string. -/
def isHexStringPairs (data : JSValue) : Bool :=
  match data with
  | arr items =>
      items.all (fun item =>
        match item with
        | arr [a, b] =>
            let aIsHex := matchHexRange 3 8 (jsStringOf a)
            let bIsHex := matchHexRange 3 8 (jsStringOf b)
            (aIsHex && typeofString b) || (typeofString a && bIsHex)
        | _ => false)
  | _ => false

/-- `ASTDetector.scoreHexStringPairs`: `0.8` plus up to `0.2` for the
fraction of pairs carrying a full 6-to-8-digit hex. The fraction is a
JavaScript division: on an empty array it is `0/0 = NaN`, which propagates
to the confidence. -/
def scoreHexStringPairs (items : List JSValue) : JNum :=
  let total := items.length
  let hexCount := items.countP (fun item =>
    match item with
    | arr (a :: b :: _) =>
        matchHexRange 6 8 (jsStringOf a) || matchHexRange 6 8 (jsStringOf b)
    | _ => false)
  (JNum.fin (4/5)).add
    (((JNum.fin (hexCount : ℚ)).div (JNum.fin (total : ℚ))).mul (JNum.fin (1/5)))

/-- `ASTDetector.isObjectEntries`. -/
def isObjectEntries (data : JSValue) : Bool :=
  match data with
  | obj fields =>
      0 < fields.length &&
      fields.any (fun kv =>
        (matchHexRange 6 8 kv.1 && typeofString kv.2) ||
        matchHexRange 6 8 (jsStringOf kv.2))
  | _ => false

/-- `ASTDetector.scoreObjectEntries`: fraction of entries that satisfy the
stricter 6-digit `{hex-key, string-value}` / `{string-key, hex-value}`
test (denominator clamped to at least 1). -/
def scoreObjectEntries (data : JSValue) : JNum :=
  match data with
  | obj fields =>
      let validPairs := fields.filter (fun kv =>
        (matchHexRange 6 6 kv.1 && typeofString kv.2) ||
        matchHexRange 6 6 (jsStringOf kv.2))
      JNum.fin ((validPairs.length : ℚ) / (max 1 fields.length : ℕ))
  | _ => JNum.fin 0

/-- `ASTDetector.isArrayOfObjects`. -/
def isArrayOfObjects (data : JSValue) : Bool :=
  match data with
  | arr items =>
      0 < items.length &&
      items.all (fun item =>
        typeofObject item && !(isArr item) &&
        (hasProp item "hex".data || hasProp item "name".data))
  | _ => false

/-- `ASTDetector.scoreArrayOfObjects`: additive confidence from the first
element's fields, capped at 1. -/
def scoreArrayOfObjects (items : List JSValue) : JNum :=
  if items.length = 0 then JNum.fin 0
  else
    let sample := items.headD undef
    let score : ℚ :=
      (if hasProp sample "hex".data then 2/5 else 0) +
      (if hasProp sample "name".data then 2/5 else 0) +
      (if hasProp sample "family".data || hasProp sample "hsl".data then 1/5 else 0)
    JNum.fin (min score 1)

/-- `ASTDetector.inferObjectSchema`. -/
def inferObjectSchema (data : JSValue) : JSValue :=
  match data with
  | obj fields =>
      let keys := fields.map Prod.fst
      let values := fields.map Prod.snd
      obj
        [("keyType".data, str (if keys.length = 0 then "undefined".data else "string".data)),
         ("valueType".data, str (typeofName (values.headD undef))),
         ("keyPattern".data,
          str (if keys.all (fun k => matchHexRange 6 6 k) then "hex".data else "name".data)),
         ("valuePattern".data,
          str (if values.all (fun v => matchHexRange 6 6 (jsStringOf v)) then "hex".data
               else "name".data))]
  | _ => obj []

/-- `ASTDetector.analyzeObjectKeys`. -/
def analyzeObjectKeys (data : JSValue) : JSValue :=
  match data with
  | obj fields =>
      obj
        [("entries".data, num fields.length),
         ("hexKeys".data, num ((fields.map Prod.fst).countP (fun k => matchHexRange 6 6 k))),
         ("hexValues".data,
          num ((fields.map Prod.snd).countP (fun v => matchHexRange 6 6 (jsStringOf v))))]
  | _ => obj []

/-- `ASTDetector.inferObjectArraySchema`: field-name-to-typeof record of
the first element. -/
def inferObjectArraySchema (items : List JSValue) : JSValue :=
  if items.length = 0 then obj []
  else
    match items.headD undef with
    | obj f => obj (f.map (fun kv => (kv.1, str (typeofName kv.2))))
    | _ => obj []

/-- `ASTDetector.isStructuredFormat`: an object with a `meta` field and at
least one non-empty array value whose first element is an object with a
truthy `hex` or `color`. -/
def isStructuredFormat (data : JSValue) : Bool :=
  match data with
  | obj fields =>
      hasProp data "meta".data &&
      (fields.map Prod.snd).any (fun v =>
        match v with
        | arr (v0 :: _) =>
            typeofObject v0 &&
            (truthy (propGet v0 "hex".data) || truthy (propGet v0 "color".data))
        | _ => false)
  | _ => false

/-- `ASTDetector.scoreStructuredFormat`: `0.3` for `meta` plus `0.1` per
non-empty array-of-objects value, capped at 1. -/
def scoreStructuredFormat (data : JSValue) : JNum :=
  match data with
  | obj fields =>
      let hasMeta : ℚ := if hasProp data "meta".data then 3/10 else 0
      let hasColorArrays := (fields.map Prod.snd).countP (fun v =>
        match v with
        | arr (v0 :: _) => typeofObject v0
        | _ => false)
      JNum.fin (min (hasMeta + (hasColorArrays : ℚ) * (1/10)) 1)
  | _ => JNum.fin 0

/-- `ASTDetector.inferStructuredSchema`. -/
def inferStructuredSchema (data : JSValue) : JSValue :=
  match data with
  | obj fields =>
      let categories := fields.foldl (fun acc kv =>
        match kv.2 with
        | arr (v0 :: _) =>
            acc ++ [(kv.1, str (if typeofObject v0 then "array<object>".data
                                else typeofName v0))]
        | _ => acc) []
      obj [("meta".data, str "object".data), ("categories".data, obj categories)]
  | _ => obj []

/-- `ASTDetector.analyzeStructuredCategories`. -/
def analyzeStructuredCategories (data : JSValue) : JSValue :=
  match data with
  | obj fields =>
      let meta := if truthy (propGet data "meta".data) then propGet data "meta".data
                  else obj []
      let categories := (fields.map Prod.fst).filter (fun k => k ≠ "meta".data)
      obj
        [("family".data,
          if truthy (propGet meta "family".data) then propGet meta "family".data
          else str "unknown".data),
         ("categories".data, arr (categories.map str)),
         ("totalColors".data,
          num (categories.foldl (fun sum cat =>
            match propGet data cat with
            | arr items => sum + items.length
            | _ => sum) 0))]
  | _ => obj []

/-- `ASTDetector.detect`: null/undefined/non-iterable input yields the
single `unknown` candidate; otherwise the matching detectors push their
candidates in source order and the list is sorted by descending
confidence. -/
def detect (data : JSValue) : List ASTStructure :=
  if isNull data || isUndef data || !(isIterable data) then
    [⟨"unknown".data, JNum.fin 0, obj [], obj []⟩]
  else
    let structures : List ASTStructure :=
      (if isColorPaletteRecord data then
        [⟨"color-palette".data, JNum.fin (49/50),
          obj [("structure".data, str "record<code-to-\x7bname,hex\x7d>".data),
               ("fields".data,
                obj [("name".data, str "string".data), ("hex".data, str "string".data)])],
          obj [("total".data,
                num (match data with | obj f => f.length | _ => 0)),
               ("format".data, str "PANTONE-like".data)]⟩]
       else []) ++
      (if isJsonObjectFormat data then
        [⟨"json".data, JNum.fin (19/20),
          obj [("structure".data, str "id-to-color-object".data)],
          obj [("entries".data,
                num (match data with | obj f => f.length | _ => 0))]⟩]
       else []) ++
      (if isHexStringPairs data then
        [⟨"pairs".data,
          scoreHexStringPairs (match data with | arr items => items | _ => []),
          obj [("items".data, arr [str "hex|string".data, str "string|hex".data])],
          obj [("pairs".data,
                num (match data with | arr items => items.length | _ => 0))]⟩]
       else []) ++
      (if isObjectEntries data then
        [⟨"object".data, scoreObjectEntries data, inferObjectSchema data,
          analyzeObjectKeys data⟩]
       else []) ++
      (if isArrayOfObjects data then
        [⟨"objects".data,
          scoreArrayOfObjects (match data with | arr items => items | _ => []),
          inferObjectArraySchema (match data with | arr items => items | _ => []),
          obj [("entries".data,
                num (match data with | arr items => items.length | _ => 0))]⟩]
       else []) ++
      (if isStructuredFormat data then
        [⟨"structured".data, scoreStructuredFormat data, inferStructuredSchema data,
          analyzeStructuredCategories data⟩]
       else [])
    jsSortByScoreDesc (fun s => s.confidence) structures

end ASTDetector

/-- The 22 characters the hex regexes accept (case-insensitive class
`[0-9a-f]`), used to quantify over hex-digit strings. -/
def hexDigitChars : List Char :=
  "0123456789abcdefABCDEF".data

/-- A dataset record with the fields `DatasetPruner.prune` reads. -/
def mkPruneColor (hx fam : String) (h s l : ℚ) : ColorRecord :=
  ⟨hx.data, [], fam.data, [], ⟨h, s, l⟩, (0, 0)⟩

/-- Concrete 8-color dataset: family `alpha` holds 2 colors, family `beta`
holds 6; all hues sit in distinct 15-degree buckets and at least 30
degrees apart, saturation/lightness offsets mirror the hue offsets so
that every family-centroid distance inside the quality scorer is the
square root of a perfect square. -/
def pruneCexColors : List ColorRecord :=
  [mkPruneColor "a1" "alpha" 0 45 45, mkPruneColor "a2" "alpha" 36 55 55,
   mkPruneColor "b1" "beta" 72 25 25, mkPruneColor "b2" "beta" 108 35 35,
   mkPruneColor "b3" "beta" 144 45 45, mkPruneColor "b4" "beta" 180 55 55,
   mkPruneColor "b5" "beta" 216 65 65, mkPruneColor "b6" "beta" 252 75 75]

/-! ### Theorems

The remainder of the file states and proves the verification results about
the embedded definitions, claim by claim, preceded by the helper lemmas
they share. -/


namespace ColorMetrics

theorem ite_family_ne_earth (c : Prop) [Decidable c] (a b : Family)
    (ha : a ≠ Family.earth) (hb : b ≠ Family.earth) :
    (if c then a else b) ≠ Family.earth := by
  by_cases hc : c
  · rw [if_pos hc]; exact ha
  · rw [if_neg hc]; exact hb

theorem baseHueFamily_ne_earth (h : ℚ) : baseHueFamily h ≠ Family.earth := by
  unfold baseHueFamily
  repeat first
    | apply ite_family_ne_earth
    | decide

theorem getColorFamilyRefine_ne_earth (h s l : ℚ) :
    getColorFamilyRefine h s l ≠ Family.earth := by
  unfold getColorFamilyRefine
  by_cases hg : (s < 1/2 ∧ l < 7/10) ∧
      baseHueFamily h ∈ [Family.orange, Family.yellow, Family.red]
  · rw [if_pos hg, if_pos ⟨by linarith [hg.1.1], hg.1.2⟩]
    decide
  · rw [if_neg hg]
    repeat first
      | exact baseHueFamily_ne_earth h
      | apply ite_family_ne_earth
      | decide

end ColorMetrics

/-- Claim C3 (code bug): `StringMetrics.damerauLevenshtein` does not
compute the restricted Damerau-Levenshtein (optimal string alignment)
distance — nor any edit distance. The recurrence adds `cost` to the
deletion term `H[i][j+1]` and the constant `1` to the diagonal term
`H[i][j]` (swapped relative to the textbook recurrence), so a matching
character still costs 1 on the diagonal. The specification's test vectors
fail: the function returns 1 on ("x", "x") — the spec requires 0 for every
equal pair, and the restricted distance is 0 — and 6 on
("kitten", "sitting") where the spec requires 3; it agrees with the spec
on ("ab", "ba") = 1 only through the transposition term. -/
theorem damerauLevenshtein_selfdistance_bug :
    StringMetrics.damerauLevenshtein "x".data "x".data = 1 ∧
    StringMetrics.osaDistance "x".data "x".data = 0 ∧
    StringMetrics.damerauLevenshtein "kitten".data "sitting".data = 6 ∧
    StringMetrics.damerauLevenshtein "abc".data "abc".data = 3 ∧
    StringMetrics.damerauLevenshtein "ab".data "ba".data = 1 := by
  decide


/-- Claim C9 (counterexample): with s = 1 and h = 7.25,
`ColorMetrics.calculateHueRange` returns (6.3, 8.3) — the endpoints are
rounded to the nearest tenth — and not the claimed narrowest band
[h-1, h+1] = (6.25, 8.25) (no clamping applies at this hue). -/
theorem calculateHueRange_rounding_counterexample :
    ColorMetrics.calculateHueRange (29/4) 1 = (63/10, 83/10) ∧
    ColorMetrics.calculateHueRange (29/4) 1 ≠ (29/4 - 1, 29/4 + 1) := by
  with_unfolding_all decide

/-- Claim C9 (amended): for every hue h in [0, 360), saturation s < 0.05
yields the full circle [0, 360]; s = 1 yields the narrowest band — spread
1 degree either side of h — clamped to [0, 360], with each endpoint
rounded to the nearest tenth (hence exactly [h-1, h+1] whenever 10·h is an
integer). -/
theorem calculateHueRange_achromatic_and_narrowest :
    ∀ h : ℚ, 0 ≤ h → h < 360 →
      (∀ s : ℚ, s < 1/20 → ColorMetrics.calculateHueRange h s = (0, 360)) ∧
      ColorMetrics.calculateHueRange h 1 =
        (jsRound (max 0 (h - 1) * 10) / 10, jsRound (min 360 (h + 1) * 10) / 10) := by
  intro h h0 h360
  constructor
  · intro s hs
    unfold ColorMetrics.calculateHueRange
    rw [if_pos hs]
  · unfold ColorMetrics.calculateHueRange
    rw [if_neg (by norm_num)]
    simp only []
    rw [show max (1 : ℚ) (20 * (1 - 1)) = 1 by norm_num]
    rcases lt_or_le (h - 1) 0 with hs | hs <;>
      rcases lt_or_le (360 : ℚ) (h + 1) with he | he
    · exfalso; linarith
    · rw [if_pos hs, if_neg (not_lt.mpr he), if_neg (by intro hc; linarith),
        max_eq_left (le_of_lt hs), min_eq_right he]
    · rw [if_neg (not_lt.mpr hs), if_pos he, if_neg (by intro hc; linarith),
        max_eq_right (not_lt.mp (not_lt.mpr hs)), min_eq_left (le_of_lt he)]
    · rw [if_neg (not_lt.mpr hs), if_neg (not_lt.mpr he), if_neg (by intro hc; linarith),
        max_eq_right (not_lt.mp (not_lt.mpr hs)), min_eq_right he]

/-- Claim C9 (witness): the amended statement applied at h = 120, with
both parts evaluated — s = 0 gives [0, 360] and s = 1 gives (119, 121). -/
theorem calculateHueRange_achromatic_and_narrowest_witness :
    ColorMetrics.calculateHueRange 120 0 = (0, 360) ∧
    ColorMetrics.calculateHueRange 120 1 =
      (jsRound (max 0 (120 - 1) * 10) / 10, jsRound (min 360 (120 + 1) * 10) / 10) := by
  obtain ⟨hA, hB⟩ :=
    calculateHueRange_achromatic_and_narrowest 120 (by norm_num) (by norm_num)
  exact ⟨hA 0 (by norm_num), hB⟩

/-- Claim C10 (confirmed): `ColorMetrics.getColorFamily` never returns the
family tag `earth`: the enclosing guard requires s < 0.5 and l < 0.7,
under which the inner condition s < 0.6 and l < 0.7 always holds and
returns `brown` first, so the `earth` branch is unreachable (and no other
branch produces `earth`). -/
theorem getColorFamily_never_earth (h0 s l : ℚ) :
    ColorMetrics.getColorFamily h0 s l ≠ ColorMetrics.Family.earth := by
  unfold ColorMetrics.getColorFamily
  repeat first
    | exact ColorMetrics.getColorFamilyRefine_ne_earth _ s l
    | apply ColorMetrics.ite_family_ne_earth
    | decide

theorem hexchar_facts : ∀ c ∈ hexDigitChars,
    ColorMetrics.isJsWhitespace c = false ∧ ColorMetrics.jsToLowerChar c ≠ '#' ∧
    ColorMetrics.isLowerHexDigit (ColorMetrics.jsToLowerChar c) = true ∧
    ColorMetrics.hexDigitVal (ColorMetrics.jsToLowerChar c) ≤ 15 := by decide

theorem dropWhile_ws_eq_self (l : List Char)
    (h : ∀ c ∈ l, ColorMetrics.isJsWhitespace c = false) :
    l.dropWhile ColorMetrics.isJsWhitespace = l := by
  cases l with
  | nil => rfl
  | cons c t =>
      rw [List.dropWhile_cons, if_neg]
      rw [h c (List.mem_cons_self c t)]
      simp

theorem jsTrim_eq_self (l : List Char)
    (h : ∀ c ∈ l, ColorMetrics.isJsWhitespace c = false) :
    ColorMetrics.jsTrim l = l := by
  unfold ColorMetrics.jsTrim
  rw [dropWhile_ws_eq_self l h, dropWhile_ws_eq_self l.reverse
    (fun c hc => h c (List.mem_reverse.mp hc)), List.reverse_reverse]

set_option maxHeartbeats 1000000 in
theorem hexToRgb_three_expands (c1 c2 c3 : Char)
    (h1 : c1 ∈ hexDigitChars) (h2 : c2 ∈ hexDigitChars) (h3 : c3 ∈ hexDigitChars) :
    ColorMetrics.hexToRgb [c1, c2, c3] = ColorMetrics.hexToRgb [c1, c1, c2, c2, c3, c3] := by
  obtain ⟨w1, p1, x1, v1⟩ := hexchar_facts c1 h1
  obtain ⟨w2, p2, x2, v2⟩ := hexchar_facts c2 h2
  obtain ⟨w3, p3, x3, v3⟩ := hexchar_facts c3 h3
  unfold ColorMetrics.hexToRgb
  rw [jsTrim_eq_self [c1, c2, c3] (by
        intro c hc
        simp only [List.mem_cons, List.not_mem_nil, or_false] at hc
        rcases hc with rfl | rfl | rfl
        exacts [w1, w2, w3]),
      jsTrim_eq_self [c1, c1, c2, c2, c3, c3] (by
        intro c hc
        simp only [List.mem_cons, List.not_mem_nil, or_false] at hc
        rcases hc with rfl | rfl | rfl | rfl | rfl | rfl
        exacts [w1, w1, w2, w2, w3, w3])]
  simp only [List.map_cons, List.map_nil, List.headD_cons, List.length_cons,
    List.length_nil, ColorMetrics.matchesHexLen, List.all_cons, List.all_nil,
    x1, x2, x3, if_neg p1, Bool.and_true, Bool.and_false]
  norm_num

set_option maxHeartbeats 1000000 in
theorem hexToRgb_hash_three_falls_back (c1 c2 c3 : Char)
    (h1 : c1 ∈ hexDigitChars) (h2 : c2 ∈ hexDigitChars) (h3 : c3 ∈ hexDigitChars) :
    ColorMetrics.hexToRgb ['#', c1, c2, c3] = [0, 0, 0, 1] := by
  obtain ⟨w1, p1, x1, v1⟩ := hexchar_facts c1 h1
  obtain ⟨w2, p2, x2, v2⟩ := hexchar_facts c2 h2
  obtain ⟨w3, p3, x3, v3⟩ := hexchar_facts c3 h3
  unfold ColorMetrics.hexToRgb
  rw [jsTrim_eq_self ['#', c1, c2, c3] (by
        intro c hc
        simp only [List.mem_cons, List.not_mem_nil, or_false] at hc
        rcases hc with rfl | rfl | rfl | rfl
        exacts [by decide, w1, w2, w3])]
  simp only [List.map_cons, List.map_nil, List.headD_cons, List.length_cons,
    List.length_nil, ColorMetrics.matchesHexLen, List.all_cons, List.all_nil,
    x1, x2, x3, Bool.and_true, Bool.and_false, List.tail_cons,
    show ColorMetrics.jsToLowerChar '#' = '#' from by decide]
  norm_num

set_option maxHeartbeats 1000000 in
theorem hexToRgb_six_eval (c1 c2 c3 c4 c5 c6 : Char)
    (h1 : c1 ∈ hexDigitChars) (h2 : c2 ∈ hexDigitChars) (h3 : c3 ∈ hexDigitChars)
    (h4 : c4 ∈ hexDigitChars) (h5 : c5 ∈ hexDigitChars) (h6 : c6 ∈ hexDigitChars) :
    ColorMetrics.hexToRgb [c1, c2, c3, c4, c5, c6] =
      (ColorMetrics.normalizeRgb
        [(ColorMetrics.parseHex2 (ColorMetrics.jsToLowerChar c1)
            (ColorMetrics.jsToLowerChar c2) : ℚ),
         (ColorMetrics.parseHex2 (ColorMetrics.jsToLowerChar c3)
            (ColorMetrics.jsToLowerChar c4) : ℚ),
         (ColorMetrics.parseHex2 (ColorMetrics.jsToLowerChar c5)
            (ColorMetrics.jsToLowerChar c6) : ℚ),
         1]).map jsRound3 := by
  obtain ⟨w1, p1, x1, v1⟩ := hexchar_facts c1 h1
  obtain ⟨w2, p2, x2, v2⟩ := hexchar_facts c2 h2
  obtain ⟨w3, p3, x3, v3⟩ := hexchar_facts c3 h3
  obtain ⟨w4, p4, x4, v4⟩ := hexchar_facts c4 h4
  obtain ⟨w5, p5, x5, v5⟩ := hexchar_facts c5 h5
  obtain ⟨w6, p6, x6, v6⟩ := hexchar_facts c6 h6
  unfold ColorMetrics.hexToRgb
  rw [jsTrim_eq_self [c1, c2, c3, c4, c5, c6] (by
        intro c hc
        simp only [List.mem_cons, List.not_mem_nil, or_false] at hc
        rcases hc with rfl | rfl | rfl | rfl | rfl | rfl
        exacts [w1, w2, w3, w4, w5, w6])]
  simp only [List.map_cons, List.map_nil, List.headD_cons, List.length_cons,
    List.length_nil, ColorMetrics.matchesHexLen, List.all_cons, List.all_nil,
    x1, x2, x3, x4, x5, x6, if_neg p1, Bool.and_true, Bool.and_false]
  norm_num

set_option maxRecDepth 4000 in
theorem byte_roundtrip_fin : ∀ v : Fin 256,
    jsRound (jsRound3
        (if (1 : ℚ) ≤ ((v : ℕ) : ℚ) then ((v : ℕ) : ℚ) / 255 else ((v : ℕ) : ℚ)) * 255) =
      ((v : ℕ) : ℚ) := by
  with_unfolding_all decide

theorem byte_roundtrip (v : ℕ) (hv : v ≤ 255) :
    jsRound (jsRound3 (if (1 : ℚ) ≤ (v : ℚ) then (v : ℚ) / 255 else (v : ℚ)) * 255) =
      (v : ℚ) :=
  byte_roundtrip_fin ⟨v, by omega⟩

theorem parseHex2_le_255 (c d : Char) (hc : ColorMetrics.hexDigitVal c ≤ 15)
    (hd : ColorMetrics.hexDigitVal d ≤ 15) : ColorMetrics.parseHex2 c d ≤ 255 := by
  unfold ColorMetrics.parseHex2
  omega

set_option maxRecDepth 4000 in
/-- Claim C7 (counterexample): with a leading `#`, the 3-digit expansion of
`ColorMetrics.hexToRgb` misfires — the length-3 test reads the raw
argument, whose length is 4 — so `hexToRgb "#abc"` hits the `[0,0,0,1]`
fallback instead of equalling `hexToRgb "aabbcc"`. -/
theorem hexToRgb_hash_abc_counterexample :
    ColorMetrics.hexToRgb "#abc".data = [0, 0, 0, 1] ∧
    ColorMetrics.hexToRgb "aabbcc".data = [667/1000, 733/1000, 4/5, 1/250] ∧
    ColorMetrics.hexToRgb "#abc".data ≠ ColorMetrics.hexToRgb "aabbcc".data := by
  with_unfolding_all decide

/-- Claim C7 (amended): for every 3-hex-digit string WITHOUT a leading `#`,
`ColorMetrics.hexToRgb` returns the same tuple as on the 6-digit string
obtained by duplicating each digit; with a leading `#` the expansion
misfires (the length-3 test reads the raw argument) and the result is the
`[0,0,0,1]` fallback. -/
theorem hexToRgb_three_digit_expansion (c1 c2 c3 : Char)
    (h1 : c1 ∈ hexDigitChars) (h2 : c2 ∈ hexDigitChars) (h3 : c3 ∈ hexDigitChars) :
    ColorMetrics.hexToRgb [c1, c2, c3] = ColorMetrics.hexToRgb [c1, c1, c2, c2, c3, c3] ∧
    ColorMetrics.hexToRgb ['#', c1, c2, c3] = [0, 0, 0, 1] :=
  ⟨hexToRgb_three_expands c1 c2 c3 h1 h2 h3, hexToRgb_hash_three_falls_back c1 c2 c3 h1 h2 h3⟩

/-- Claim C7 (witness): the amended statement applied to the digits
`f`, `4`, `B`. -/
theorem hexToRgb_three_digit_expansion_witness :
    ColorMetrics.hexToRgb ['f', '4', 'B'] =
      ColorMetrics.hexToRgb ['f', 'f', '4', '4', 'B', 'B'] ∧
    ColorMetrics.hexToRgb ['#', 'f', '4', 'B'] = [0, 0, 0, 1] :=
  hexToRgb_three_digit_expansion 'f' '4' 'B' (by decide) (by decide) (by decide)

/-- Claim C8 (confirmed): for every 6-hex-digit string (either case), each
of the first three components of `ColorMetrics.hexToRgb` — already rounded
to 3 decimals — multiplied by 255 and rounded to the nearest integer
recovers exactly the corresponding channel byte of the (lower-cased) hex
string. -/
theorem hexToRgb_recovers_bytes (c1 c2 c3 c4 c5 c6 : Char)
    (h1 : c1 ∈ hexDigitChars) (h2 : c2 ∈ hexDigitChars) (h3 : c3 ∈ hexDigitChars)
    (h4 : c4 ∈ hexDigitChars) (h5 : c5 ∈ hexDigitChars) (h6 : c6 ∈ hexDigitChars) :
    jsRound ((ColorMetrics.hexToRgb [c1, c2, c3, c4, c5, c6]).getD 0 0 * 255) =
      (ColorMetrics.parseHex2 (ColorMetrics.jsToLowerChar c1)
        (ColorMetrics.jsToLowerChar c2) : ℚ) ∧
    jsRound ((ColorMetrics.hexToRgb [c1, c2, c3, c4, c5, c6]).getD 1 0 * 255) =
      (ColorMetrics.parseHex2 (ColorMetrics.jsToLowerChar c3)
        (ColorMetrics.jsToLowerChar c4) : ℚ) ∧
    jsRound ((ColorMetrics.hexToRgb [c1, c2, c3, c4, c5, c6]).getD 2 0 * 255) =
      (ColorMetrics.parseHex2 (ColorMetrics.jsToLowerChar c5)
        (ColorMetrics.jsToLowerChar c6) : ℚ) := by
  obtain ⟨w1, p1, x1, v1⟩ := hexchar_facts c1 h1
  obtain ⟨w2, p2, x2, v2⟩ := hexchar_facts c2 h2
  obtain ⟨w3, p3, x3, v3⟩ := hexchar_facts c3 h3
  obtain ⟨w4, p4, x4, v4⟩ := hexchar_facts c4 h4
  obtain ⟨w5, p5, x5, v5⟩ := hexchar_facts c5 h5
  obtain ⟨w6, p6, x6, v6⟩ := hexchar_facts c6 h6
  rw [hexToRgb_six_eval c1 c2 c3 c4 c5 c6 h1 h2 h3 h4 h5 h6]
  simp only [ColorMetrics.normalizeRgb, List.map_cons, List.map_nil,
    List.getD_cons_zero, List.getD_cons_succ]
  exact ⟨byte_roundtrip _ (parseHex2_le_255 _ _ v1 v2),
    byte_roundtrip _ (parseHex2_le_255 _ _ v3 v4),
    byte_roundtrip _ (parseHex2_le_255 _ _ v5 v6)⟩

set_option maxRecDepth 4000 in
/-- Claim C8 (witness): the round-trip applied to `fF00a1`: the recovered
bytes are 255, 0 and 161. -/
theorem hexToRgb_recovers_bytes_witness :
    jsRound ((ColorMetrics.hexToRgb "fF00a1".data).getD 0 0 * 255) = 255 ∧
    jsRound ((ColorMetrics.hexToRgb "fF00a1".data).getD 1 0 * 255) = 0 ∧
    jsRound ((ColorMetrics.hexToRgb "fF00a1".data).getD 2 0 * 255) = 161 := by
  obtain ⟨e1, e2, e3⟩ := hexToRgb_recovers_bytes 'f' 'F' '0' '0' 'a' '1'
    (by decide) (by decide) (by decide) (by decide) (by decide) (by decide)
  refine ⟨?_, ?_, ?_⟩
  · rw [show "fF00a1".data = ['f', 'F', '0', '0', 'a', '1'] from rfl, e1]
    with_unfolding_all decide
  · rw [show "fF00a1".data = ['f', 'F', '0', '0', 'a', '1'] from rfl, e2]
    with_unfolding_all decide
  · rw [show "fF00a1".data = ['f', 'F', '0', '0', 'a', '1'] from rfl, e3]
    with_unfolding_all decide

/-- Claim C2 (code bug): on a duplicate-free input that mixes a named and
an empty-named record, `SemanticDeduplicator.deduplicate` silently drops
the empty-named record: phase 2 rebuilds the result from the name groups
only, and records with empty names never enter a name group. The oracle
argument is irrelevant here (all groups are singletons). -/
theorem deduplicate_drops_unnamed_record :
    SemanticDeduplicator.deduplicate (fun _ => 0)
      [⟨"aa0000".data, "Red".data, "red".data, [], ⟨0, 0, 0⟩, (0, 0)⟩,
       ⟨"bb0000".data, [], "red".data, [], ⟨0, 0, 0⟩, (0, 0)⟩] [] =
    ⟨[⟨"aa0000".data, "Red".data, "red".data, [], ⟨0, 0, 0⟩, (0, 0)⟩], []⟩ := by
  with_unfolding_all decide

theorem jnum_add_nan (x : JNum) : JNum.add x JNum.nan = JNum.nan := by
  cases x <;> rfl

theorem jnum_nan_add (x : JNum) : JNum.add JNum.nan x = JNum.nan := by
  cases x <;> rfl

/-- Saturation quality over a degenerate (single-point) family saturation
range: `NaN` exactly when the color's saturation hits the point (a `0/0`),
else capped to `1.0` (an `x/0 = Infinity`). -/
theorem calculateSaturationQuality_degenerate (s m : ℚ) :
    QualityScorer.calculateSaturationQuality s m m =
      (if s = m then JNum.nan else JNum.fin 1) := by
  unfold QualityScorer.calculateSaturationQuality
  simp only []
  rw [show (m + m) / 2 = m from by ring, sub_self, max_self]
  by_cases hs : s = m
  · rw [if_pos hs, hs, sub_self, abs_zero]
    rfl
  · rw [if_neg hs]
    have habs : ¬(|s - m| = 0) := fun hc => hs (sub_eq_zero.mp (abs_eq_zero.mp hc))
    have hpos : 0 < |s - m| := abs_pos.mpr (sub_ne_zero.mpr hs)
    simp only [JNum.div, if_pos rfl, if_neg habs, if_pos hpos]
    rfl

/-- Claim C4 (counterexample): with an empty nearby list, an empty family
list, and a degenerate saturation range sMin = sMax = 50 hit by the
color's own saturation, `QualityScorer.scoreColor` returns `NaN` for
`saturationQuality` (a `0/0` division — `maxDistance` is zero) and hence
`NaN` for `overallScore`; the claim that all five numbers are never `NaN`
fails. -/
theorem scoreColor_nan_counterexample :
    (QualityScorer.scoreColor ⟨"ff0000".data, [], "red".data, [], ⟨0, 50, 50⟩, (0, 0)⟩
        [] [] ⟨0, 0, 50, 50, 30, 70⟩).saturationQuality = JNum.nan ∧
    (QualityScorer.scoreColor ⟨"ff0000".data, [], "red".data, [], ⟨0, 50, 50⟩, (0, 0)⟩
        [] [] ⟨0, 0, 50, 50, 30, 70⟩).overallScore = JNum.nan := by
  with_unfolding_all decide

/-- Claim C4 (amended): `QualityScorer.scoreColor` returns uniqueness `1.0`
whenever `nearbyColors` is empty and family representativity `1.0`
whenever `familyColors` is empty (the two guards); but when the range has
`sMin = sMax`, `saturationQuality` is only defined (capped at `1.0`) when
the color's saturation differs from that common value — when it equals
it, `saturationQuality` and therefore `overallScore` are `NaN`. -/
theorem scoreColor_guards_and_degenerate_range (color : ColorRecord)
    (nearby family : List ColorRecord) (r : QualityScorer.SpectralRanges) :
    (nearby = [] →
      (QualityScorer.scoreColor color nearby family r).uniqueness = JNum.fin 1) ∧
    (family = [] →
      (QualityScorer.scoreColor color nearby family r).familyRepresentativity = JNum.fin 1) ∧
    (r.sMin = r.sMax → color.hsl.s ≠ r.sMin →
      (QualityScorer.scoreColor color nearby family r).saturationQuality = JNum.fin 1) ∧
    (r.sMin = r.sMax → color.hsl.s = r.sMin →
      (QualityScorer.scoreColor color nearby family r).saturationQuality = JNum.nan ∧
      (QualityScorer.scoreColor color nearby family r).overallScore = JNum.nan) := by
  refine ⟨?_, ?_, ?_, ?_⟩
  · intro h
    subst h
    simp [QualityScorer.scoreColor, QualityScorer.calculateUniqueness]
  · intro h
    subst h
    simp [QualityScorer.scoreColor, QualityScorer.calculateFamilyRepresentativity]
  · intro hEq hNe
    have hmm : r.sMax = r.sMin := hEq.symm
    simp only [QualityScorer.scoreColor, hmm,
      calculateSaturationQuality_degenerate color.hsl.s r.sMin]
    rw [if_neg hNe]
  · intro hEq hS
    have hmm : r.sMax = r.sMin := hEq.symm
    have hsat : QualityScorer.calculateSaturationQuality color.hsl.s r.sMin r.sMax =
        JNum.nan := by
      rw [hmm, calculateSaturationQuality_degenerate color.hsl.s r.sMin, if_pos hS]
    constructor
    · simp only [QualityScorer.scoreColor, hsat]
    · simp only [QualityScorer.scoreColor, hsat]
      rw [show JNum.mul JNum.nan (JNum.fin 25) = JNum.nan from rfl,
        jnum_add_nan, jnum_nan_add, jnum_nan_add]
      rfl

/-- Claim C4 (witness): the guards evaluated at concrete inputs — empty
nearby and family lists give uniqueness and representativity `1.0`; a
color with saturation 40 against a degenerate range at 50 gets
saturation quality `1.0`; a color with saturation 50 against the same
range gets `NaN`. -/
theorem scoreColor_guards_and_degenerate_range_witness :
    (QualityScorer.scoreColor ⟨"00ff00".data, [], "green".data, [], ⟨120, 40, 50⟩, (0, 0)⟩
        [] [] ⟨0, 0, 50, 50, 0, 100⟩).uniqueness = JNum.fin 1 ∧
    (QualityScorer.scoreColor ⟨"00ff00".data, [], "green".data, [], ⟨120, 40, 50⟩, (0, 0)⟩
        [] [] ⟨0, 0, 50, 50, 0, 100⟩).familyRepresentativity = JNum.fin 1 ∧
    (QualityScorer.scoreColor ⟨"00ff00".data, [], "green".data, [], ⟨120, 40, 50⟩, (0, 0)⟩
        [] [] ⟨0, 0, 50, 50, 0, 100⟩).saturationQuality = JNum.fin 1 ∧
    (QualityScorer.scoreColor ⟨"00ff00".data, [], "green".data, [], ⟨120, 50, 50⟩, (0, 0)⟩
        [] [] ⟨0, 0, 50, 50, 0, 100⟩).saturationQuality = JNum.nan :=
  ⟨(scoreColor_guards_and_degenerate_range _ [] [] _).1 rfl,
   (scoreColor_guards_and_degenerate_range _ [] [] _).2.1 rfl,
   (scoreColor_guards_and_degenerate_range _ [] [] _).2.2.1 rfl (by norm_num),
   ((scoreColor_guards_and_degenerate_range _ [] [] _).2.2.2 rfl rfl).1⟩

/-- Claim C5 (counterexample): the empty object is iterable for
`ASTDetector.detect` (it is a plain object), no shape detector matches it,
and the result is the empty list — not a list containing the `unknown`
candidate. -/
theorem detect_empty_object_counterexample :
    (ASTDetector.detect (JSValue.obj [])).length = 0 := by
  rfl

/-- Claim C5 (amended): `ASTDetector.detect` returns the single `unknown`
candidate with confidence 0 exactly for null, undefined and non-iterable
inputs; for an iterable input matched by no detector — the empty object,
for instance — it returns the empty list. -/
theorem detect_unknown_only_for_noniterable :
    (∀ v : JSValue,
      (v = JSValue.null ∨ v = JSValue.undef ∨ ASTDetector.isIterable v = false) →
      (ASTDetector.detect v).map (fun s => (s.type, s.confidence)) =
        [("unknown".data, JNum.fin 0)]) ∧
    ASTDetector.detect (JSValue.obj []) = [] := by
  constructor
  · intro v hv
    rcases hv with rfl | rfl | hIter
    · rfl
    · rfl
    · simp [ASTDetector.detect, hIter]
  · rfl

/-- Claim C5 (witness): the amended statement applied to the non-iterable
input `5`. -/
theorem detect_unknown_only_for_noniterable_witness :
    (ASTDetector.detect (JSValue.num 5)).map (fun s => (s.type, s.confidence)) =
      [("unknown".data, JNum.fin 0)] :=
  detect_unknown_only_for_noniterable.1 (JSValue.num 5) (Or.inr (Or.inr rfl))

/-- Claim C6 (code bug): on the empty array, `ASTDetector.isHexStringPairs`
holds vacuously, and `scoreHexStringPairs` computes `0.8 + (0/0)*0.2`,
so `detect []` returns the `pairs` candidate with confidence `NaN` —
outside [0,1], contradicting the claimed invariant. -/
theorem detect_empty_array_nan_confidence :
    (ASTDetector.detect (JSValue.arr [])).map (fun s => (s.type, s.confidence)) =
      [("pairs".data, JNum.nan)] := by
  with_unfolding_all decide

theorem jsSortInsert_perm {α : Type} (f : α → JNum) (x : α) (l : List α) :
    List.Perm (jsSortInsert f x l) (x :: l) := by
  induction l with
  | nil => exact List.Perm.refl _
  | cons y ys ih =>
      unfold jsSortInsert
      split
      · exact (ih.cons y).trans (List.Perm.swap x y ys)
      · exact List.Perm.refl _

theorem jsSortByScoreDesc_perm {α : Type} (f : α → JNum) (l : List α) :
    List.Perm (jsSortByScoreDesc f l) l := by
  induction l with
  | nil => exact List.Perm.refl _
  | cons x xs ih =>
      exact (jsSortInsert_perm f x (jsSortByScoreDesc f xs)).trans (ih.cons x)

theorem jsSortByScoreDesc_length {α : Type} (f : α → JNum) (l : List α) :
    (jsSortByScoreDesc f l).length = l.length :=
  (jsSortByScoreDesc_perm f l).length_eq

theorem take_sort_subperm {α : Type} (f : α → JNum) (n : ℕ) (l : List α) :
    List.Subperm ((jsSortByScoreDesc f l).take n) l :=
  ((List.take_sublist n _).subperm).trans (jsSortByScoreDesc_perm f l).subperm

theorem subperm_append {α : Type} [DecidableEq α] {l1 l2 r1 r2 : List α}
    (h1 : List.Subperm l1 l2) (h2 : List.Subperm r1 r2) :
    List.Subperm (l1 ++ r1) (l2 ++ r2) := by
  obtain ⟨a, pa, sa⟩ := h1
  obtain ⟨b, pb, sb⟩ := h2
  exact ⟨a ++ b, pa.append pb, sa.append sb⟩

theorem upsertGroup_flatten_perm {α : Type} (k : List Char) (c : α)
    (m : List (List Char × List α)) :
    List.Perm (((upsertGroup k c m).map Prod.snd).flatten)
      (c :: (m.map Prod.snd).flatten) := by
  induction m with
  | nil => exact List.Perm.refl _
  | cons kg rest ih =>
      unfold upsertGroup
      split
      · simp only [List.map_cons, List.flatten_cons]
        exact (List.perm_append_singleton c kg.2).append_right _
      · simp only [List.map_cons, List.flatten_cons]
        exact (ih.append_left kg.2).trans List.perm_middle

open QualityScorer SpectrumAnalyzer DatasetPruner in
theorem sc_foldl_upsert_flatten_perm (key : ColorQualityMetrics → List Char) :
    ∀ (l : List ColorQualityMetrics) (m0 : List (List Char × List ColorQualityMetrics)),
      List.Perm (((l.foldl (fun m c => upsertGroup (key c) c m) m0).map Prod.snd).flatten)
        ((m0.map Prod.snd).flatten ++ l) := by
  intro l
  induction l with
  | nil => intro m0; simp
  | cons c l ih =>
      intro m0
      have h1 := ih (upsertGroup (key c) c m0)
      have h2 := upsertGroup_flatten_perm (key c) c m0
      exact h1.trans ((h2.append_right l).trans List.perm_middle.symm)

open QualityScorer SpectrumAnalyzer DatasetPruner in
theorem sc_foldl_append_take_subperm (f : ColorQualityMetrics → JNum) (t : ℕ) :
    ∀ (gs : List (List Char × List ColorQualityMetrics))
      (acc R : List ColorQualityMetrics), List.Subperm acc R →
      List.Subperm
        (gs.foldl (fun a kg =>
          a ++ (jsSortByScoreDesc f kg.2).take (min t (jsSortByScoreDesc f kg.2).length)) acc)
        (R ++ (gs.map Prod.snd).flatten) := by
  intro gs
  induction gs with
  | nil => intro acc R h; simpa using h
  | cons kg gs ih =>
      intro acc R h
      have hstep : List.Subperm
          (acc ++ (jsSortByScoreDesc f kg.2).take (min t (jsSortByScoreDesc f kg.2).length))
          (R ++ kg.2) :=
        subperm_append h (take_sort_subperm f _ kg.2)
      have := ih _ _ hstep
      simpa [List.append_assoc] using this

namespace SpectrumAnalyzer

theorem distributeColor_bounds
    (st : List (ℚ × SpectrumBucket) × List (List Char) × List (List Char × FamilyRange))
    (c : ColorRecord) :
    ((distributeColor st c).1).map (fun kb => (kb.2.hueMin, kb.2.hueMax)) =
      st.1.map (fun kb => (kb.2.hueMin, kb.2.hueMax)) := by
  simp only [distributeColor, List.map_map]
  refine List.map_congr_left (fun kb _ => ?_)
  simp only [Function.comp]
  split <;> rfl

theorem foldl_distributeColor_bounds :
    ∀ (colors : List ColorRecord)
      (st : List (ℚ × SpectrumBucket) × List (List Char) × List (List Char × FamilyRange)),
      ((colors.foldl distributeColor st).1).map (fun kb => (kb.2.hueMin, kb.2.hueMax)) =
        st.1.map (fun kb => (kb.2.hueMin, kb.2.hueMax)) := by
  intro colors
  induction colors with
  | nil => intro st; rfl
  | cons c cs ih => intro st; rw [List.foldl_cons, ih, distributeColor_bounds]

theorem finishBucket_bounds (b : SpectrumBucket) :
    (finishBucket b).hueMin = b.hueMin ∧ (finishBucket b).hueMax = b.hueMax := by
  unfold finishBucket
  split <;> exact ⟨rfl, rfl⟩

theorem analyzeCoverage_buckets_bounds (colors : List ColorRecord) :
    ((analyzeCoverage colors).buckets).map (fun kb => (kb.2.hueMin, kb.2.hueMax)) =
      (List.range 24).map (fun i => (((15 * i : ℕ) : ℚ), ((15 * i + 15 : ℕ) : ℚ))) := by
  simp only [analyzeCoverage, List.map_map]
  have h1 : ((colors.foldl distributeColor (initBuckets, [], [])).1).map
      ((fun kb => (kb.2.hueMin, kb.2.hueMax)) ∘ (fun kb => (kb.1, finishBucket kb.2))) =
      ((colors.foldl distributeColor (initBuckets, [], [])).1).map
        (fun kb => (kb.2.hueMin, kb.2.hueMax)) := by
    refine List.map_congr_left (fun kb _ => ?_)
    simp only [Function.comp]
    rw [(finishBucket_bounds kb.2).1, (finishBucket_bounds kb.2).2]
  rw [h1, foldl_distributeColor_bounds]
  simp only [initBuckets, List.map_map]
  rfl

theorem getCriticalBuckets_pairwise (colors : List ColorRecord) :
    List.Pairwise (fun b1 b2 => b1.hueMax ≤ b2.hueMin)
      (getCriticalBuckets (analyzeCoverage colors)) := by
  have hrange : List.Pairwise (fun b1 b2 => b1.hueMax ≤ b2.hueMin)
      (((analyzeCoverage colors).buckets).map Prod.snd) := by
    have hmap : List.Pairwise (fun p q : ℚ × ℚ => p.2 ≤ q.1)
        (((analyzeCoverage colors).buckets).map (fun kb => (kb.2.hueMin, kb.2.hueMax))) := by
      rw [analyzeCoverage_buckets_bounds, List.pairwise_map]
      refine (List.pairwise_lt_range 24).imp ?_
      intro i j hij
      have : 15 * i + 15 ≤ 15 * j := by omega
      exact_mod_cast Nat.cast_le.mpr this
    rw [List.pairwise_map] at hmap ⊢
    exact hmap.imp (fun h => h)
  unfold getCriticalBuckets
  exact (hrange.filter _).filter _

end SpectrumAnalyzer

theorem headD_mem_of_ne_nil {α : Type} {l : List α} (h : l ≠ []) (d : α) :
    l.headD d ∈ l := by
  cases l with
  | nil => exact absurd rfl h
  | cons a as => exact List.mem_cons_self a as

namespace DatasetPruner

open QualityScorer SpectrumAnalyzer

theorem backfillStep_cases (scored final0 : List ColorQualityMetrics) (t : ℕ)
    (cur : List ColorQualityMetrics) (b : SpectrumBucket) :
    backfillStep scored final0 t cur b = cur ∨
    ∃ c, c ∈ scored ∧ final0.any (fun f => f.color.hex = c.color.hex) = false ∧
      b.hueMin ≤ c.color.hsl.h ∧ c.color.hsl.h < b.hueMax ∧
      backfillStep scored final0 t cur b =
        (jsSortByScoreDesc (fun sc => sc.overallScore) (cur ++ [c])).take t := by
  simp only [backfillStep]
  split
  case isTrue h =>
    right
    have hcmem := headD_mem_of_ne_nil (List.ne_nil_of_length_pos h.1)
      (default : ColorQualityMetrics)
    rw [(jsSortByScoreDesc_perm _ _).mem_iff, List.mem_filter, List.mem_filter] at hcmem
    have hpq := of_decide_eq_true hcmem.2
    have hq := of_decide_eq_true hcmem.1.2
    exact ⟨_, hcmem.1.1, Bool.eq_false_iff.mpr hq, hpq.1, hpq.2, rfl⟩
  case isFalse h => exact Or.inl rfl

theorem backfillStep_invariant (scored final0 : List ColorQualityMetrics) (t : ℕ)
    (cur : List ColorQualityMetrics) (b : SpectrumBucket)
    (hsub : List.Subperm cur scored) (hlen : cur.length ≤ t)
    (hcur : ∀ x ∈ cur, final0.any (fun f => f.color.hex = x.color.hex) = true ∨
      ¬(b.hueMin ≤ x.color.hsl.h ∧ x.color.hsl.h < b.hueMax)) :
    List.Subperm (backfillStep scored final0 t cur b) scored ∧
    (backfillStep scored final0 t cur b).length ≤ t ∧
    ∀ x ∈ backfillStep scored final0 t cur b,
      x ∈ cur ∨ (b.hueMin ≤ x.color.hsl.h ∧ x.color.hsl.h < b.hueMax) := by
  rcases backfillStep_cases scored final0 t cur b with heq | ⟨c, hcs, hcf, hclo, hchi, heq⟩
  · rw [heq]
    exact ⟨hsub, hlen, fun x hx => Or.inl hx⟩
  · have hcnotmem : c ∉ cur := by
      intro hmem
      rcases hcur c hmem with hf | hr
      · rw [hcf] at hf; exact Bool.false_ne_true hf
      · exact hr ⟨hclo, hchi⟩
    have hconssub : List.Subperm (c :: cur) scored := by
      rw [List.subperm_ext_iff]
      intro x hx
      by_cases hxc : x = c
      · subst hxc
        rw [List.count_cons_self, List.count_eq_zero_of_not_mem hcnotmem]
        exact Nat.succ_le_of_lt (List.count_pos_iff.mpr hcs)
      · rw [List.count_cons_of_ne hxc]
        exact hsub.count_le x
    have happsub : List.Subperm (cur ++ [c]) scored :=
      (List.perm_append_singleton c cur).subperm.trans hconssub
    refine ⟨?_, ?_, ?_⟩
    · rw [heq]
      exact (take_sort_subperm _ t _).trans happsub
    · rw [heq]
      exact List.length_take_le t _
    · intro x hx
      rw [heq] at hx
      have hx2 : x ∈ cur ++ [c] :=
        (jsSortByScoreDesc_perm _ _).mem_iff.mp (List.take_subset t _ hx)
      rcases List.mem_append.mp hx2 with h1 | h1
      · exact Or.inl h1
      · rw [List.mem_singleton.mp h1]
        exact Or.inr ⟨hclo, hchi⟩

theorem backfill_fold_invariant (scored final0 : List ColorQualityMetrics) (t : ℕ) :
    ∀ (bs : List SpectrumBucket) (cur : List ColorQualityMetrics),
      List.Pairwise (fun b1 b2 => b1.hueMax ≤ b2.hueMin) bs →
      List.Subperm cur scored → cur.length ≤ t →
      (∀ x ∈ cur, final0.any (fun f => f.color.hex = x.color.hex) = true ∨
        ∀ b ∈ bs, ¬(b.hueMin ≤ x.color.hsl.h ∧ x.color.hsl.h < b.hueMax)) →
      List.Subperm (bs.foldl (backfillStep scored final0 t) cur) scored ∧
      (bs.foldl (backfillStep scored final0 t) cur).length ≤ t := by
  intro bs
  induction bs with
  | nil => intro cur _ h1 h2 _; exact ⟨h1, h2⟩
  | cons b bs ih =>
      intro cur hpw hsub hlen hmem
      rw [List.foldl_cons]
      obtain ⟨hpwhead, hpwtail⟩ := List.pairwise_cons.mp hpw
      obtain ⟨hsub2, hlen2, hmem2⟩ := backfillStep_invariant scored final0 t cur b hsub hlen
        (fun x hx => (hmem x hx).imp_right (fun hr => hr b (List.mem_cons_self b bs)))
      refine ih _ hpwtail hsub2 hlen2 ?_
      intro x hx
      rcases hmem2 x hx with hc | hr
      · exact (hmem x hc).imp_right (fun h b2 hb2 => h b2 (List.mem_cons_of_mem b hb2))
      · refine Or.inr (fun b2 hb2 h2 => ?_)
        have := hpwhead b2 hb2
        linarith [hr.2, h2.1]

theorem selected_phase_subperm (scoredColors : List ColorQualityMetrics) (T : ℕ) :
    List.Subperm
      ((scoredColors.foldl (fun m sc => upsertGroup sc.color.family sc m) []).foldl
        (fun acc kg => acc ++ (jsSortByScoreDesc (fun sc => sc.overallScore) kg.2).take
          (min T (jsSortByScoreDesc (fun sc => sc.overallScore) kg.2).length)) [])
      scoredColors := by
  have h1 := sc_foldl_append_take_subperm (fun sc => sc.overallScore) T
    (scoredColors.foldl (fun m sc => upsertGroup sc.color.family sc m) []) [] []
    (List.Subperm.refl [])
  have h2 := sc_foldl_upsert_flatten_perm (fun sc => sc.color.family) scoredColors []
  exact h1.trans (by simpa using h2.subperm)

theorem selectOptimalColors_length_le (scoredColors : List ColorQualityMetrics)
    (config : PruningConfig) :
    (selectOptimalColors scoredColors config).length ≤
      min config.targetCount scoredColors.length := by
  simp only [selectOptimalColors]
  have hselsub := selected_phase_subperm scoredColors
    (⌈(config.targetCount : ℚ) /
        ((scoredColors.foldl (fun m sc => upsertGroup sc.color.family sc m) []).length : ℚ) *
      (6/5)⌉ : ℤ).toNat
  have hfinsub : List.Subperm
      ((jsSortByScoreDesc (fun sc => sc.overallScore)
        ((scoredColors.foldl (fun m sc => upsertGroup sc.color.family sc m) []).foldl
          (fun acc kg => acc ++ (jsSortByScoreDesc (fun sc => sc.overallScore) kg.2).take
            (min (⌈(config.targetCount : ℚ) /
                ((scoredColors.foldl (fun m sc => upsertGroup sc.color.family sc m) []).length : ℚ) *
              (6/5)⌉ : ℤ).toNat (jsSortByScoreDesc (fun sc => sc.overallScore) kg.2).length)) [])).take
        config.targetCount)
      scoredColors :=
    (take_sort_subperm _ config.targetCount _).trans hselsub
  split
  · refine le_min ?_ ?_
    · exact (backfill_fold_invariant scoredColors _ config.targetCount _ _
        (List.Pairwise.sublist (List.take_sublist _ _) (getCriticalBuckets_pairwise _))
        hfinsub (List.length_take_le _ _)
        (fun x hx => Or.inl (List.any_eq_true.mpr ⟨x, hx, decide_eq_true rfl⟩))).2
    · exact ((backfill_fold_invariant scoredColors _ config.targetCount _ _
        (List.Pairwise.sublist (List.take_sublist _ _) (getCriticalBuckets_pairwise _))
        hfinsub (List.length_take_le _ _)
        (fun x hx => Or.inl (List.any_eq_true.mpr ⟨x, hx, decide_eq_true rfl⟩))).1).length_le
  · exact le_min (List.length_take_le _ _) hfinsub.length_le

end DatasetPruner

/-- Claim C1 (amended): `DatasetPruner.prune` returns at most
`min(targetCount, colors.length)` records — the effective target being the
`options` override when present — but not always exactly that many: the
family-representation phase can hand fewer than `targetCount` colors to
the final ranking even when enough colors exist. -/
theorem prune_returns_at_most_min (colors : List ColorRecord) (k : ℕ)
    (options : DatasetPruner.PruningOptions) :
    (DatasetPruner.prune colors k options).1.length ≤
      min (options.targetCount.getD k) colors.length := by
  simp only [DatasetPruner.prune, List.length_map]
  have h := DatasetPruner.selectOptimalColors_length_le
    (DatasetPruner.scoreAllColors colors (SpectrumAnalyzer.analyzeCoverage colors))
    { targetCount := options.targetCount.getD k
      minFamilies := options.minFamilies.getD
        (max 20 (jsCeil (((colors.foldl
          (fun acc c => if acc.contains c.family then acc else acc ++ [c.family])
          ([] : List (List Char))).length : ℚ) * (7/10))))
      minCoverage := options.minCoverage.getD (17/20)
      preserveExtremes := options.preserveExtremes.getD true }
  have hlen : (DatasetPruner.scoreAllColors colors
      (SpectrumAnalyzer.analyzeCoverage colors)).length = colors.length := by
    simp [DatasetPruner.scoreAllColors]
  rw [hlen] at h
  exact h

set_option maxRecDepth 10000 in
/-- Claim C1 (counterexample): on a concrete dataset of 8 colors in two
families, `prune` with target 8 returns only 7 records — not
`min(8, 8) = 8`: with 2 families, each contributes at most
`ceil(8/2*1.2) = 5` colors, so only `2 + 5 = 7` reach the final ranking
and the gap-filling step has nothing to add. -/
theorem prune_misses_target_counterexample :
    pruneCexColors.length = 8 ∧
    (DatasetPruner.prune pruneCexColors 8 {}).1.length = 7 :=
  ⟨rfl, by with_unfolding_all decide⟩
